import Mathlib

/-!
Shallow embedding of the household order_system application
(`src/app/main.py`, `src/app/models.py`) and proofs about its task,
points, reward, recurring-rule, meal-plan and import/export logic.

Conventions used throughout:
* Python integers are `Int`; primary keys are `Int` values.
* Dates are day numbers (`Int`); `timedelta(days=k)` is `+ k`.
* `datetime` values are abstract `Int` instants.
* `Optional[T]` is `Option T`; SQL `NULL` is `none`.
* Python truthiness (`x or y`, `if x:`) is modelled by explicit helpers
  (`py_or_int`, `py_truthy_int`, ...): `None`, `0` and `""` are falsy.
* A request handler returns `Except String s`: `Except.error` models the
  `else` branch that redirects with a flash message and, because the
  request-scoped session (`get_session` in `src/app/db.py`) is closed
  without `session.commit()`, leaves the persisted state unchanged.
* SQL `SELECT ... WHERE` over a table is `List.filter`/`List.find?` over
  the list of that table's rows, in storage order.
-/

namespace OrderSystem

/-- Python `a or b` for `a : Optional[int]`, `b : int`: `None` and `0` are
falsy, so the result is `a` unless `a` is `None` or `0`. -/
def py_or_int : Option Int → Int → Int
  | some a, b => if a = 0 then b else a
  | none, b => b

/-- Python `if x:` for `x : Optional[int]`: truthy iff present and nonzero. -/
def py_truthy_int : Option Int → Bool
  | some a => a != 0
  | none => false

/-- Python `a or b` for two `Optional[str]` values: `None` and `""` are falsy. -/
def py_or_opt_str : Option String → Option String → Option String
  | some a, b => if a = "" then b else some a
  | none, b => b

/-- Python `a or b` for two `str` values: `""` is falsy. -/
def py_or_str (a b : String) : String :=
  if a = "" then b else a

/-- Python `str.strip()`: drop leading and trailing whitespace. -/
def strip (s : String) : String :=
  String.mk (((s.data.dropWhile Char.isWhitespace).reverse.dropWhile
    Char.isWhitespace).reverse)

/-- Task lifecycle states (`TaskStatus` in `src/app/models.py`).  `open` is
a Lean keyword, so that state is written `open_`. -/
inductive TaskStatus where
  | open_
  | assigned
  | in_progress
  | completed
  | approved
  | cancelled
deriving DecidableEq, Repr

/-- `PointTransactionType` in `src/app/models.py`. -/
inductive PointTransactionType where
  | earn
  | spend
  | adjust
deriving DecidableEq, Repr

/-- `RewardStatus` in `src/app/models.py`. -/
inductive RewardStatus where
  | pending
  | approved
  | rejected
deriving DecidableEq, Repr

/-- `RecurringFrequency` in `src/app/models.py`. -/
inductive RecurringFrequency where
  | daily
  | weekly
  | monthly
deriving DecidableEq, Repr

/-- Meal slots (`MealSlot`, used by `src/app/main.py`). -/
inductive MealSlot where
  | lunch
  | dinner
deriving DecidableEq, Repr

/-- `User` rows (`src/app/models.py`). -/
structure User where
  id : Int
  household_id : Int
  email : String
  display_name : String
  hashed_password : String
  is_admin : Bool
deriving DecidableEq, Repr

/-- `Household` rows (`src/app/models.py`); only the fields the verified
handlers read are kept. -/
structure Household where
  id : Int
  name : String
  join_code : String
deriving DecidableEq, Repr

/-- `Task` rows (`src/app/models.py`).  `created_at` is omitted (never read
by the verified logic); `updated_at` is kept because `update_task_status`
writes it. -/
structure Task where
  id : Int
  household_id : Int
  order_number : Int
  title : String
  description : Option String
  category : String
  due_date : Int
  proposed_points : Int
  actual_points : Option Int
  priority : Int
  status : TaskStatus
  created_by_user_id : Int
  assignee_user_id : Option Int
  task_template_id : Option Int
  meal_plan_day_id : Option Int
  meal_slot : Option MealSlot
  notes : Option String
  updated_at : Int
deriving DecidableEq, Repr

/-- `PointTransaction` rows (`src/app/models.py`); append-only ledger. -/
structure PointTransaction where
  household_id : Int
  user_id : Int
  amount : Int
  transaction_type : PointTransactionType
  description : String
  related_task_id : Option Int
  related_reward_use_id : Option Int
deriving DecidableEq, Repr

/-- `RewardUse` rows (`src/app/models.py`). -/
structure RewardUse where
  id : Int
  household_id : Int
  user_id : Int
  reward_template_id : Option Int
  title : String
  cost_points : Int
  status : RewardStatus
  approved_by_user_id : Option Int
  approved_at : Option Int
deriving DecidableEq, Repr

/-- `calculate_user_balance` (`src/app/main.py:644`): the signed sum of the
amounts of the user's point transactions, `COALESCE`d to `0` when there are
none. -/
def calculate_user_balance (txs : List PointTransaction) (user_id : Int) : Int :=
  ((txs.filter fun tx => tx.user_id == user_id).map fun tx => tx.amount).sum

/-- One step of the task-action handler `update_task_status`
(`src/app/main.py:2887`), after `get_task` fetched the task for the actor's
household.  `actual_points` is the optional form field.  The result pairs
the task as committed with the transaction table as committed; the trailing
`else` branch returns `Except.error` (flash "Invalid action") and commits
nothing.  The two `if` statements before the action dispatch (lines
2898-2901 of the source) are modelled by `t0`. -/
def update_task_status (task : Task) (actor : User) (action : String)
    (actual_points : Option Int) (txs : List PointTransaction) (now : Int) :
    Except String (Task × List PointTransaction) :=
  let t0 :=
    if actual_points.isSome then { task with actual_points := actual_points }
    else if (action = "claim" ∨ action = "start") ∧ task.actual_points = none then
      { task with actual_points := some task.proposed_points }
    else task
  if action = "claim" ∧ task.status = TaskStatus.open_ then
    Except.ok ({ t0 with
      assignee_user_id := some actor.id
      status := TaskStatus.assigned
      updated_at := now }, txs)
  else if action = "start" ∧ (task.status = TaskStatus.assigned ∨ task.status = TaskStatus.open_) then
    Except.ok ({ t0 with
      assignee_user_id := some (py_or_int task.assignee_user_id actor.id)
      status := TaskStatus.in_progress
      updated_at := now }, txs)
  else if action = "complete" ∧ (task.status = TaskStatus.in_progress ∨ task.status = TaskStatus.assigned) then
    let t1 := { t0 with
      assignee_user_id := some (py_or_int task.assignee_user_id actor.id)
      status := TaskStatus.completed }
    let t2 := if actual_points.isSome then { t1 with actual_points := actual_points } else t1
    Except.ok ({ t2 with updated_at := now }, txs)
  else if action = "approve" ∧ task.status = TaskStatus.completed then
    let pts := py_or_int actual_points (py_or_int t0.actual_points task.proposed_points)
    let t1 := { t0 with
      status := TaskStatus.approved
      actual_points := some pts
      updated_at := now }
    if (txs.filter fun tx => tx.related_task_id == some task.id).isEmpty then
      Except.ok (t1, txs ++ [{
        household_id := actor.household_id
        user_id := py_or_int task.assignee_user_id task.created_by_user_id
        amount := pts
        transaction_type := PointTransactionType.earn
        description := "Task " ++ task.title ++ " approved"
        related_task_id := some task.id
        related_reward_use_id := none }])
    else
      Except.ok (t1, txs)
  else if action = "cancel" ∧ ¬(task.status = TaskStatus.approved ∨ task.status = TaskStatus.cancelled) then
    Except.ok ({ t0 with status := TaskStatus.cancelled, updated_at := now }, txs)
  else
    Except.error "Invalid action"

/-- The handler's effect on persisted state: a rejected action redirects
without committing, and the request-scoped session discards uncommitted
attribute changes when it is closed, so the stored task and ledger are
unchanged.  The boolean records whether the action was accepted. -/
def apply_task_action (task : Task) (actor : User) (action : String)
    (actual_points : Option Int) (txs : List PointTransaction) (now : Int) :
    (Task × List PointTransaction) × Bool :=
  match update_task_status task actor action actual_points txs now with
  | Except.ok st => (st, true)
  | Except.error _ => ((task, txs), false)

/-- The (action, current status) pairs accepted by the dispatch chain of
`update_task_status` — the transition table of the specification. -/
def valid_task_action (action : String) (st : TaskStatus) : Prop :=
  (action = "claim" ∧ st = TaskStatus.open_)
    ∨ (action = "start" ∧ (st = TaskStatus.assigned ∨ st = TaskStatus.open_))
    ∨ (action = "complete" ∧ (st = TaskStatus.in_progress ∨ st = TaskStatus.assigned))
    ∨ (action = "approve" ∧ st = TaskStatus.completed)
    ∨ (action = "cancel" ∧ ¬(st = TaskStatus.approved ∨ st = TaskStatus.cancelled))

instance (action : String) (st : TaskStatus) : Decidable (valid_task_action action st) := by
  unfold valid_task_action
  infer_instance

/-- The actual-points rule of the `approve` action as the claim states it:
"the supplied value or the existing actual_points or the proposed_points",
read as first-available.  Written from the claim's words, to be compared
with what the code computes. -/
def claimed_approve_points (supplied existing : Option Int) (proposed : Int) : Int :=
  match supplied, existing with
  | some s, _ => s
  | none, some e => e
  | none, none => proposed

/-- The actual-points value `approve` actually stores: the pre-dispatch
assignment overwrites the existing value with the supplied one, then the
falsy-coalescing chain runs, so a supplied `0` discards the existing value
and falls through to `proposed_points`. -/
def approve_actual_points (supplied existing : Option Int) (proposed : Int) : Int :=
  match supplied with
  | some s => if s = 0 then proposed else s
  | none => py_or_int existing proposed

/-- `handle_reward_use` (`src/app/main.py:3166`), after `get_reward_use`
fetched the reward use for the actor's household.  Same commit semantics as
`update_task_status`. -/
def handle_reward_use (ru : RewardUse) (actor : User) (action : String)
    (txs : List PointTransaction) (now : Int) :
    Except String (RewardUse × List PointTransaction) :=
  if action = "approve" ∧ ru.status = RewardStatus.pending then
    let ru1 := { ru with
      status := RewardStatus.approved
      approved_by_user_id := some actor.id
      approved_at := some now }
    if (txs.filter fun tx => tx.related_reward_use_id == some ru.id).isEmpty then
      Except.ok (ru1, txs ++ [{
        household_id := actor.household_id
        user_id := ru.user_id
        amount := -|ru.cost_points|
        transaction_type := PointTransactionType.spend
        description := "Reward approved: " ++ ru.title
        related_task_id := none
        related_reward_use_id := some ru.id }])
    else
      Except.ok (ru1, txs)
  else if action = "reject" ∧ ru.status = RewardStatus.pending then
    Except.ok ({ ru with status := RewardStatus.rejected }, txs)
  else
    Except.error "Invalid action"

/-- Persisted-state effect of `handle_reward_use`, mirroring
`apply_task_action`. -/
def apply_reward_action (ru : RewardUse) (actor : User) (action : String)
    (txs : List PointTransaction) (now : Int) :
    (RewardUse × List PointTransaction) × Bool :=
  match handle_reward_use ru actor action txs now with
  | Except.ok st => (st, true)
  | Except.error _ => ((ru, txs), false)

/-- The tail of the `register` handler (`src/app/main.py:1696`), after the
household has been resolved (created, or joined via its join code): reject
a duplicate email inside the household, otherwise create the user, who is
an admin exactly when the household had no user yet. -/
def register (users : List User) (household : Household)
    (email display_name pwhash : String) (new_id : Int) : Except String User :=
  if users.any fun u => u.email == email && u.household_id == household.id then
    Except.error "User already exists"
  else
    Except.ok {
      id := new_id
      household_id := household.id
      email := email
      display_name := display_name
      hashed_password := pwhash
      is_admin := !(users.any fun u => u.household_id == household.id) }

/-- `TaskTemplate` rows (`src/app/models.py`). -/
structure TaskTemplate where
  id : Int
  household_id : Int
  title : String
  default_category : Option String
  default_points : Option Int
  relative_due_days : Option Int
  memo : Option String
  instructions : Option String
deriving DecidableEq, Repr

/-- `RecurringTaskRule` rows (`src/app/models.py`). -/
structure RecurringTaskRule where
  id : Int
  household_id : Int
  task_template_id : Int
  assignee_user_id : Option Int
  frequency : RecurringFrequency
  next_run_date : Int
  active : Bool
deriving DecidableEq, Repr

/-- `next_order_number` (`src/app/main.py:666`): `MAX(order_number)` over
the household's tasks (`NULL`, i.e. `none`, on an empty table, coalesced to
`0` by `int(current_max or 0)`) plus one. -/
def next_order_number (tasks : List Task) (household_id : Int) : Int :=
  py_or_int ((tasks.filter fun t => t.household_id == household_id).map
    fun t => t.order_number).max? 0 + 1

/-- The fixed advance applied to a fired rule's `next_run_date`
(`src/app/main.py:1505-1510`): daily +1, weekly +7, anything else
(monthly) +30. -/
def freq_offset : RecurringFrequency → Int
  | RecurringFrequency.daily => 1
  | RecurringFrequency.weekly => 7
  | RecurringFrequency.monthly => 30

/-- Python `a or b` for `a : Optional[str]`, `b : str`. -/
def py_or_str_opt : Option String → String → String
  | some a, b => if a = "" then b else a
  | none, b => b

/-- The `Task` built from a template by a fired recurring rule (loop body
of `run_recurring_rules`, `src/app/main.py:1488-1502`).  The primary key
is assigned by the database and modelled as `0`. -/
def rule_task (template : TaskTemplate) (rule : RecurringTaskRule)
    (household_id created_by_user_id today order_number : Int) : Task :=
  { id := 0
    household_id := household_id
    order_number := order_number
    title := template.title
    description := template.memo
    category := py_or_str_opt template.default_category ""
    due_date := today + (match template.relative_due_days with | some d => d | none => 0)
    proposed_points := py_or_int template.default_points 0
    actual_points := none
    priority := 3
    status := TaskStatus.open_
    created_by_user_id := created_by_user_id
    assignee_user_id := rule.assignee_user_id
    task_template_id := some template.id
    meal_plan_day_id := none
    meal_slot := none
    notes := template.memo
    updated_at := 0 }

/-- `run_recurring_rules` (`src/app/main.py:1470`): the select keeps the
household's active rules with `next_run_date <= today`; each such rule
whose template resolves (`session.get`) yields one new task and has its
`next_run_date` advanced to `today + freq_offset`.  `tasks` is the
household's task table — the order-number query sees tasks added earlier
in the same loop through autoflush.  Returns the rule table as committed
and the created tasks. -/
def run_recurring_rules (templates : List TaskTemplate)
    (household_id created_by_user_id today : Int) (tasks : List Task) :
    List RecurringTaskRule → List RecurringTaskRule × List Task
  | [] => ([], [])
  | rule :: rest =>
    if rule.household_id = household_id ∧ rule.active = true ∧ rule.next_run_date ≤ today then
      match templates.find? fun t => t.id == rule.task_template_id with
      | none =>
        let r := run_recurring_rules templates household_id created_by_user_id today tasks rest
        (rule :: r.1, r.2)
      | some template =>
        let task := rule_task template rule household_id created_by_user_id today
          (next_order_number tasks household_id)
        let r := run_recurring_rules templates household_id created_by_user_id today
          (tasks ++ [task]) rest
        ({ rule with next_run_date := today + freq_offset rule.frequency } :: r.1, task :: r.2)
    else
      let r := run_recurring_rules templates household_id created_by_user_id today tasks rest
      (rule :: r.1, r.2)

/-- `Ingredient` rows (`src/app/models.py`). -/
structure Ingredient where
  id : Int
  household_id : Int
  name : String
  unit : Option String
deriving DecidableEq, Repr

/-- `Menu` rows (`src/app/models.py`). -/
structure Menu where
  id : Int
  household_id : Int
  name : String
  description : Option String
deriving DecidableEq, Repr

/-- `MenuIngredient` rows (`src/app/models.py`, with the `unit_option_id`
column read and written by `src/app/main.py`).  Quantities are Python
floats; the verified aggregation and round-trip arguments involve only
exact values, so they are modelled as rationals (Python's `str`/`float`
conversion of a float is exact). -/
structure MenuIngredient where
  menu_id : Int
  ingredient_id : Int
  quantity : ℚ
  unit_option_id : Option Int
deriving DecidableEq, Repr

/-- `UnitOption` rows (used throughout `src/app/main.py`). -/
structure UnitOption where
  id : Int
  household_id : Int
  name : String
  active : Bool
deriving DecidableEq, Repr

/-- `MealPlan` rows (`src/app/models.py`). -/
structure MealPlan where
  id : Int
  household_id : Int
  name : String
  start_date : Int
  end_date : Int
deriving DecidableEq, Repr

/-- `MealPlanDay` rows: `src/app/models.py` declares the legacy
`lunch_menu_id`/`dinner_menu_id` columns; the per-slot meal-set template
columns are the ones `run_meal_plan_tasks` in `src/app/main.py` reads. -/
structure MealPlanDay where
  id : Int
  meal_plan_id : Int
  day_date : Int
  lunch_menu_id : Option Int
  dinner_menu_id : Option Int
  lunch_set_template_id : Option Int
  dinner_set_template_id : Option Int
deriving DecidableEq, Repr

/-- `MealPlanSelection` rows (used by `src/app/main.py`): one structured
menu choice of a (day, slot), ordered by `position`. -/
structure MealPlanSelection where
  meal_plan_day_id : Int
  meal_slot : MealSlot
  menu_id : Option Int
  position : Int
deriving DecidableEq, Repr

/-- `MealSetTemplate` rows (used by `src/app/main.py`). -/
structure MealSetTemplate where
  id : Int
  household_id : Int
  name : String
  description : Option String
deriving DecidableEq, Repr

/-- Insertion into a Python `set`, modelled as a duplicate-free list that
keeps insertion order. -/
def set_insert (l : List Int) (x : Int) : List Int :=
  if x ∈ l then l else l ++ [x]

/-- The legacy per-day menu ids collected by
`aggregate_meal_plan_ingredients` (lines 987-992): truthy
`lunch_menu_id`/`dinner_menu_id` of the plan's days, as a Python set. -/
def plan_day_menu_ids (plan : MealPlan) (days : List MealPlanDay) : List Int :=
  (days.filter fun d => d.meal_plan_id == plan.id).foldl
    (fun acc d =>
      let acc1 := match d.lunch_menu_id with
        | some m => if m ≠ 0 then set_insert acc m else acc
        | none => acc
      match d.dinner_menu_id with
      | some m => if m ≠ 0 then set_insert acc1 m else acc1
      | none => acc1)
    []

/-- All menu ids referenced by a plan (lines 987-1002): the legacy day ids
plus the non-null truthy menu ids of the plan's structured selections.
A Python set: each menu id appears exactly once. -/
def plan_menu_ids (plan : MealPlan) (days : List MealPlanDay)
    (selections : List MealPlanSelection) : List Int :=
  (selections.filter fun s =>
      (days.filter fun d => d.meal_plan_id == plan.id).any
        fun d => d.id == s.meal_plan_day_id).foldl
    (fun acc s => match s.menu_id with
      | some m => if m ≠ 0 then set_insert acc m else acc
      | none => acc)
    (plan_day_menu_ids plan days)

/-- The aggregated quantity reported for one (ingredient name, unit) group
by `aggregate_meal_plan_ingredients` (lines 1005-1015): the SQL sum of
`MenuIngredient.quantity` over the join with `Ingredient` (on the group's
name and unit) and `Menu` (restricted to the collected menu ids of the
plan's household).  The endpoint returns one row per group in unspecified
SQL order, so the embedding exposes the per-group totals. -/
def aggregate_total (menus : List Menu) (menu_ingredients : List MenuIngredient)
    (ingredients : List Ingredient) (plan : MealPlan) (days : List MealPlanDay)
    (selections : List MealPlanSelection) (name : String) (unit : Option String) : ℚ :=
  (menu_ingredients.map fun mi =>
    ((ingredients.filter fun i =>
        i.id == mi.ingredient_id && i.name == name && i.unit == unit).length : ℚ)
    * ((menus.filter fun m =>
        m.id == mi.menu_id && m.household_id == plan.household_id
          && (plan_menu_ids plan days selections).contains m.id).length : ℚ)
    * mi.quantity).sum

/-- The aggregation rule as the claim states it, written from the claim's
words: the sum of quantities across all contributing menus *and
occurrences*, a menu used on two different days being counted twice.  One
occurrence per truthy legacy day slot and one per structured selection. -/
def claimed_occurrence_total (menus : List Menu)
    (menu_ingredients : List MenuIngredient) (ingredients : List Ingredient)
    (plan : MealPlan) (days : List MealPlanDay)
    (selections : List MealPlanSelection) (name : String) (unit : Option String) : ℚ :=
  let menu_total : Option Int → ℚ := fun mid =>
    match mid with
    | some m =>
      if m ≠ 0 then
        ((menu_ingredients.filter fun mi =>
            mi.menu_id == m
              && (menus.any fun mn => mn.id == m && mn.household_id == plan.household_id)
              && ((ingredients.find? fun i => i.id == mi.ingredient_id).any
                    fun i => i.name == name && i.unit == unit)).map
          fun mi => mi.quantity).sum
      else 0
    | none => 0
  ((days.filter fun d => d.meal_plan_id == plan.id).map fun d =>
      menu_total d.lunch_menu_id + menu_total d.dinner_menu_id).sum
  + ((selections.filter fun s =>
        (days.filter fun d => d.meal_plan_id == plan.id).any
          fun d => d.id == s.meal_plan_day_id).map
      fun s => menu_total s.menu_id).sum

/-- Label of a meal slot in generated task titles
(`src/app/main.py:1552`). -/
def meal_slot_label : MealSlot → String
  | MealSlot.lunch => "昼食"
  | MealSlot.dinner => "夕食"

/-- Ordered insertion used to model `ORDER BY position`. -/
def insert_by_position (s : MealPlanSelection) :
    List MealPlanSelection → List MealPlanSelection
  | [] => [s]
  | t :: ts =>
    if s.position ≤ t.position then s :: t :: ts else t :: insert_by_position s ts

/-- `ORDER BY MealPlanSelection.position`. -/
def sort_by_position (l : List MealPlanSelection) : List MealPlanSelection :=
  l.foldr insert_by_position []

/-- The structured selections of one (day, slot), ordered by position
(`src/app/main.py:1530-1534`). -/
def slot_selections (selections : List MealPlanSelection) (day : MealPlanDay)
    (slot : MealSlot) : List MealPlanSelection :=
  sort_by_position (selections.filter fun s =>
    s.meal_plan_day_id == day.id && s.meal_slot == slot)

/-- The per-slot meal-set template column read by `run_meal_plan_tasks`
(`src/app/main.py:1529`). -/
def slot_set_id (day : MealPlanDay) : MealSlot → Option Int
  | MealSlot.lunch => day.lunch_set_template_id
  | MealSlot.dinner => day.dinner_set_template_id

/-- The dictionary `menus_by_id` (`src/app/main.py:1525`): household menus
with truthy ids, looked up by a selection's (possibly null) menu id.  Menu
ids are primary keys, hence unique. -/
def lookup_menu (menus : List Menu) (household_id : Int) : Option Int → Option Menu
  | some mid =>
    (menus.filter fun m => m.household_id == household_id && m.id != 0).find?
      fun m => m.id == mid
  | none => none

/-- The dictionary `set_templates` (`src/app/main.py:1526`), looked up by a
day's per-slot set-template id.  Template ids are primary keys. -/
def lookup_set_template (sets : List MealSetTemplate) (household_id : Int) :
    Option Int → Option MealSetTemplate
  | some sid =>
    (sets.filter fun s => s.household_id == household_id && s.id != 0).find?
      fun s => s.id == sid
  | none => none

/-- `set_label` (`src/app/main.py:1551`): the meal-set name when the slot
has a truthy set id that resolves, else `""`. -/
def slot_set_label (sets : List MealSetTemplate) (household_id : Int)
    (set_id : Option Int) : String :=
  if py_truthy_int set_id then
    match lookup_set_template sets household_id set_id with
    | some s => s.name
    | none => ""
  else ""

/-- Title of a generated meal task (`src/app/main.py:1553-1555`). -/
def meal_task_title (slot : MealSlot) (set_label : String)
    (menu_names : List String) : String :=
  let base := meal_slot_label slot ++ "準備: " ++ py_or_str set_label "献立"
  if menu_names.isEmpty then base
  else base ++ " (" ++ String.intercalate ", " menu_names ++ ")"

/-- One (day, slot) step of `run_meal_plan_tasks`
(`src/app/main.py:1528-1573`): skip when the slot has neither a truthy
set-template id nor structured selections, or when a generated task for
the (day, slot) already exists; otherwise build one `meal` task. -/
def run_meal_plan_slot (menus : List Menu) (sets : List MealSetTemplate)
    (selections : List MealPlanSelection) (household_id created_by_user_id : Int)
    (tasks : List Task) (day : MealPlanDay) (slot : MealSlot) : Option Task :=
  let set_id := slot_set_id day slot
  let sel := slot_selections selections day slot
  if ¬ py_truthy_int set_id = true ∧ sel = [] then none
  else if tasks.any fun t => t.household_id == household_id
      && t.meal_plan_day_id == some day.id && t.meal_slot == some slot then none
  else
    let menu_names := sel.filterMap fun s =>
      (lookup_menu menus household_id s.menu_id).map fun m => m.name
    let title := meal_task_title slot (slot_set_label sets household_id set_id) menu_names
    let d := if menu_names.isEmpty then ""
      else String.intercalate "\n" menu_names
    some {
      id := 0
      household_id := household_id
      order_number := next_order_number tasks household_id
      title := title
      description := if d = "" then none else some d
      category := "meal"
      due_date := day.day_date
      proposed_points := 2
      actual_points := none
      priority := 2
      status := TaskStatus.open_
      created_by_user_id := created_by_user_id
      assignee_user_id := none
      task_template_id := none
      meal_plan_day_id := some day.id
      meal_slot := some slot
      notes := none
      updated_at := 0 }

/-- `run_meal_plan_tasks` (`src/app/main.py:1517`): scan the household's
meal-plan days with `day_date <= today`, process the lunch then the dinner
slot of each, and return the created tasks.  The existence query sees tasks
added earlier in the loop through autoflush, hence the growing `tasks`
accumulator. -/
def run_meal_plan_tasks (plans : List MealPlan) (menus : List Menu)
    (sets : List MealSetTemplate) (selections : List MealPlanSelection)
    (household_id created_by_user_id today : Int) (tasks : List Task) :
    List MealPlanDay → List Task
  | [] => []
  | day :: rest =>
    if (plans.any fun p => p.id == day.meal_plan_id && p.household_id == household_id)
        ∧ day.day_date ≤ today then
      match run_meal_plan_slot menus sets selections household_id created_by_user_id
          tasks day MealSlot.lunch with
      | some t1 =>
        match run_meal_plan_slot menus sets selections household_id created_by_user_id
            (tasks ++ [t1]) day MealSlot.dinner with
        | some t2 =>
          t1 :: t2 :: run_meal_plan_tasks plans menus sets selections household_id
            created_by_user_id today (tasks ++ [t1, t2]) rest
        | none =>
          t1 :: run_meal_plan_tasks plans menus sets selections household_id
            created_by_user_id today (tasks ++ [t1]) rest
      | none =>
        match run_meal_plan_slot menus sets selections household_id created_by_user_id
            tasks day MealSlot.dinner with
        | some t2 =>
          t2 :: run_meal_plan_tasks plans menus sets selections household_id
            created_by_user_id today (tasks ++ [t2]) rest
        | none =>
          run_meal_plan_tasks plans menus sets selections household_id
            created_by_user_id today tasks rest
    else
      run_meal_plan_tasks plans menus sets selections household_id
        created_by_user_id today tasks rest

/-- The per-slot trigger as the claim states it, written from the claim's
words: the slot has a legacy menu id or structured selections. -/
def claimed_slot_trigger (day : MealPlanDay) (slot : MealSlot)
    (selections : List MealPlanSelection) : Bool :=
  py_truthy_int (match slot with
    | MealSlot.lunch => day.lunch_menu_id
    | MealSlot.dinner => day.dinner_menu_id)
  || !(selections.filter fun s =>
        s.meal_plan_day_id == day.id && s.meal_slot == slot).isEmpty

/-- One ingredient line of an exported menu
(`export_household_data`, `src/app/main.py:1044-1051`): name, quantity
(`float(qty or 0)`, the identity on the modelled exact values) and unit
(the line's unit-option name if any, else the ingredient's unit, by Python
`or`). -/
structure ExportIngredientLine where
  name : String
  quantity : ℚ
  unit : Option String
deriving DecidableEq, Repr

/-- One exported menu (`src/app/main.py:1037-1053`).  The dish-type name
is resolved independently of the ingredient/menu equivalence verified here
and is omitted. -/
structure ExportMenu where
  name : String
  description : Option String
  ingredients : List ExportIngredientLine
deriving DecidableEq, Repr

/-- The sections of the exported JSON document involved in the verified
ingredient/menu round trip (`export_household_data`,
`src/app/main.py:1066-1113`).  The document also carries dish types, meal
sets, task categories/templates, recurring rules and reward templates,
which touch only tables outside this claim. -/
structure ExportDoc where
  unit_options : List (String × Bool)
  ingredients : List (String × Option String)
  menus : List ExportMenu
deriving DecidableEq, Repr

/-- The tables involved in the ingredient/menu export/import round trip,
plus the database's primary-key allocator (new rows get `next_id`). -/
structure MealDB where
  unit_options : List UnitOption
  ingredients : List Ingredient
  menus : List Menu
  menu_ingredients : List MenuIngredient
  next_id : Int
deriving DecidableEq, Repr

/-- `get_unit_options` (`src/app/main.py:701`): the household's active
unit options.  The `ORDER BY name` is omitted: the verified statements
compare per-row contents, which re-sorting does not change (an already
sorted export re-imports and re-exports in the same order). -/
def get_unit_options (db : MealDB) (household_id : Int) : List UnitOption :=
  db.unit_options.filter fun u => u.household_id == household_id && u.active

/-- `get_ingredients` (`src/app/main.py:709`), `ORDER BY` omitted as for
`get_unit_options`. -/
def get_ingredients (db : MealDB) (household_id : Int) : List Ingredient :=
  db.ingredients.filter fun i => i.household_id == household_id

/-- `get_menus_for_household` (`src/app/main.py:689`), `ORDER BY` omitted
as for `get_unit_options`. -/
def get_menus_for_household (db : MealDB) (household_id : Int) : List Menu :=
  db.menus.filter fun m => m.household_id == household_id

/-- The exported line of one menu-ingredient row of a menu, when the row
belongs to it: inner join with the ingredient table (a row whose
ingredient is missing is dropped), outer join with the unit-option table
on the row's `unit_option_id`. -/
def export_line_fn (opts : List UnitOption) (ings : List Ingredient)
    (menu : Menu) (mi : MenuIngredient) : Option ExportIngredientLine :=
  if mi.menu_id == menu.id then
    (ings.find? fun i => i.id == mi.ingredient_id).map fun ing =>
      { name := ing.name
        quantity := mi.quantity
        unit := py_or_opt_str
          ((mi.unit_option_id.bind fun oid =>
              opts.find? fun w => w.id == oid).map fun w => w.name)
          ing.unit }
  else none

/-- The ingredient lines of one menu as the export query computes them
from given tables. -/
def lines_of (opts : List UnitOption) (ings : List Ingredient)
    (rows : List MenuIngredient) (menu : Menu) : List ExportIngredientLine :=
  rows.filterMap (export_line_fn opts ings menu)

/-- The ingredient-line query of the export (`src/app/main.py:1026-1036`),
over the database's tables. -/
def export_menu_lines (db : MealDB) (menu : Menu) : List ExportIngredientLine :=
  lines_of db.unit_options db.ingredients db.menu_ingredients menu

/-- `export_household_data` (`src/app/main.py:1018`), restricted to the
sections the round-trip claim is about. -/
def export_household_data (db : MealDB) (household_id : Int) : ExportDoc :=
  { unit_options := (get_unit_options db household_id).map fun u => (u.name, u.active)
    ingredients := (get_ingredients db household_id).map fun i => (i.name, i.unit)
    menus := (get_menus_for_household db household_id).map fun m =>
      { name := m.name
        description := m.description
        ingredients := export_menu_lines db m } }

/-- Mutating the first unit option of the household with the given name
(the `.first()` row of the upsert in `import_household_data`,
`src/app/main.py:1124-1131`). -/
def set_unit_option_active (household_id : Int) (nm : String) (a : Bool) :
    List UnitOption → List UnitOption
  | [] => []
  | u :: us =>
    if u.household_id == household_id && u.name == nm then { u with active := a } :: us
    else u :: set_unit_option_active household_id nm a us

/-- The unit-option upsert of `import_household_data`
(`src/app/main.py:1120-1134`). -/
def import_unit_option (db : MealDB) (household_id : Int) (entry : String × Bool) : MealDB :=
  let nm := strip entry.1
  if nm = "" then db
  else if (db.unit_options.find? fun u =>
      u.household_id == household_id && u.name == nm).isSome then
    { db with unit_options := set_unit_option_active household_id nm entry.2 db.unit_options }
  else
    { db with
      unit_options := db.unit_options ++
        [{ id := db.next_id, household_id := household_id, name := nm, active := entry.2 }]
      next_id := db.next_id + 1 }

/-- Python `x or None` on an optional string (`entry.get("unit") or None`,
`src/app/main.py:1160`). -/
def normalize_opt_str : Option String → Option String
  | some s => if s = "" then none else some s
  | none => none

/-- `get_or_create_ingredient` (`src/app/main.py:673`): find the
household's ingredient by (name, unit) or create it. -/
def get_or_create_ingredient (db : MealDB) (household_id : Int) (nm : String)
    (unit : Option String) : Ingredient × MealDB :=
  match db.ingredients.find? fun i =>
      i.household_id == household_id && i.name == nm && i.unit == unit with
  | some i => (i, db)
  | none =>
    let ing : Ingredient :=
      { id := db.next_id, household_id := household_id, name := nm, unit := unit }
    (ing, { db with ingredients := db.ingredients ++ [ing], next_id := db.next_id + 1 })

/-- The ingredient upsert of `import_household_data`
(`src/app/main.py:1156-1162`). -/
def import_ingredient (db : MealDB) (household_id : Int)
    (entry : String × Option String) : MealDB :=
  let nm := strip entry.1
  if nm = "" then db
  else (get_or_create_ingredient db household_id nm (normalize_opt_str entry.2)).2

/-- Python `str(ing.get("unit", ""))` (`src/app/main.py:1199`): the `unit`
key is always present in an exported line, so a `null` unit becomes the
literal string `"None"`. -/
def str_of_opt_unit : Option String → String
  | none => "None"
  | some s => s

/-- Loop body of `save_menu_ingredients` (`src/app/main.py:1362-1385`):
skip blank names, resolve the unit against the active unit options, find
or create the ingredient, append the line row.  The quantity string
produced by the import loop parses back to the same value (`float(str(q))`
is the identity), so quantities are passed through. -/
def save_menu_ingredient_line (household_id menu_id : Int)
    (lookup : List UnitOption) (db : MealDB) (line : String × ℚ × String) : MealDB :=
  let cleaned := strip line.1
  if cleaned = "" then db
  else
    let unit_clean := if line.2.2 = "" then "" else strip line.2.2
    let uopt := if unit_clean = "" then none
      else lookup.find? fun u => u.name == unit_clean
    let r := get_or_create_ingredient db household_id cleaned
      (match uopt with
       | some o => some o.name
       | none => if unit_clean = "" then none else some unit_clean)
    { r.2 with menu_ingredients := r.2.menu_ingredients ++ [{
        menu_id := menu_id
        ingredient_id := r.1.id
        quantity := line.2.1
        unit_option_id := uopt.map fun o => o.id }] }

/-- `save_menu_ingredients` (`src/app/main.py:1349`): delete the menu's
rows, then re-insert one row per non-blank line, resolving units against
the active unit options captured before the loop. -/
def save_menu_ingredients (db : MealDB) (household_id menu_id : Int)
    (lines : List (String × ℚ × String)) : MealDB :=
  let db0 := { db with
    menu_ingredients := db.menu_ingredients.filter fun mi => !(mi.menu_id == menu_id) }
  let lookup := get_unit_options db0 household_id
  lines.foldl (save_menu_ingredient_line household_id menu_id lookup) db0

/-- The (name, quantity, unit-string) rows the menu import hands to
`save_menu_ingredients` (`src/app/main.py:1190-1199`): one per line with a
non-blank stripped name, the unit passed through `str` (`"None"` for a
null unit). -/
def menu_line_triples (entry : ExportMenu) : List (String × ℚ × String) :=
  entry.ingredients.filterMap fun l =>
    let ing_name := strip l.name
    if ing_name = "" then none
    else some (ing_name, l.quantity, str_of_opt_unit l.unit)

/-- Mutating the first menu of the household with the given name (the
`.first()` row of the menu upsert). -/
def set_menu_description (household_id : Int) (nm : String) (d : Option String) :
    List Menu → List Menu
  | [] => []
  | m :: ms =>
    if m.household_id == household_id && m.name == nm then
      { m with description := d } :: ms
    else m :: set_menu_description household_id nm d ms

/-- The menu upsert of `import_household_data`
(`src/app/main.py:1164-1207`): find or create the menu by name, update its
description, then replace its ingredient lines.  The dish-type resolution
only sets the (omitted) dish-type reference. -/
def import_menu (db : MealDB) (household_id : Int) (entry : ExportMenu) : MealDB :=
  let nm := strip entry.name
  if nm = "" then db
  else
    let lines := menu_line_triples entry
    match db.menus.find? fun m => m.household_id == household_id && m.name == nm with
    | some m =>
      let db1 := { db with menus := set_menu_description household_id nm entry.description db.menus }
      save_menu_ingredients db1 household_id m.id lines
    | none =>
      let m : Menu :=
        { id := db.next_id, household_id := household_id, name := nm,
          description := entry.description }
      let db1 := { db with menus := db.menus ++ [m], next_id := db.next_id + 1 }
      save_menu_ingredients db1 household_id m.id lines

/-- `import_household_data` (`src/app/main.py:1116`), restricted to the
sections of the round-trip claim, in the source's fixed order: unit
options first, then ingredients, then menus.  The skipped sections (dish
types, meal sets, categories, task templates, recurring rules, reward
templates) read and write only tables outside the claim. -/
def import_household_data (db : MealDB) (household_id : Int) (payload : ExportDoc) : MealDB :=
  let db1 := payload.unit_options.foldl (fun d e => import_unit_option d household_id e) db
  let db2 := payload.ingredients.foldl (fun d e => import_ingredient d household_id e) db1
  payload.menus.foldl (fun d e => import_menu d household_id e) db2

/-- Clearing the ingredient and menu tables (the round-trip scenario of
the claim; menu-ingredient rows belong to the cleared menus). -/
def clear_ingredients_and_menus (db : MealDB) : MealDB :=
  { db with ingredients := [], menus := [], menu_ingredients := [] }

/-- A non-empty string unchanged by stripping. -/
def trimmed_nonempty (s : String) : Prop := s ≠ "" ∧ strip s = s

/-- Well-formedness of an ingredient's unit for the pure ingredient-table
round trip: absent, or a non-empty string. -/
def unit_wf : Option String → Prop
  | none => True
  | some u => u ≠ ""

/-- Well-formedness of one menu-ingredient line for the round trip: if the
line's ingredient resolves, the exported unit equals the ingredient's own
unit, which is a trimmed non-empty string (this is what
`save_menu_ingredients` itself establishes for app-created lines). -/
def line_unit_ok (db : MealDB) (mi : MenuIngredient) : Prop :=
  match db.ingredients.find? fun i => i.id == mi.ingredient_id with
  | none => True
  | some ing =>
    match ing.unit with
    | none => False
    | some u => trimmed_nonempty u ∧
        py_or_opt_str ((mi.unit_option_id.bind fun oid =>
            db.unit_options.find? fun w => w.id == oid).map fun w => w.name)
          ing.unit = some u

/-- The well-formed single-household states for which the round trip is
proved: exactly the shape the application itself creates (trimmed
non-empty names, units present on menu lines, natural keys unique). -/
structure WFHousehold (db : MealDB) (household_id : Int) : Prop where
  opts_hh : ∀ u ∈ db.unit_options, u.household_id = household_id
  opts_name : ∀ u ∈ db.unit_options, trimmed_nonempty u.name
  opts_name_nodup : (db.unit_options.map fun u => u.name).Nodup
  opts_id_nodup : (db.unit_options.map fun u => u.id).Nodup
  ings_hh : ∀ i ∈ db.ingredients, i.household_id = household_id
  ings_name : ∀ i ∈ db.ingredients, trimmed_nonempty i.name
  ings_unit : ∀ i ∈ db.ingredients, unit_wf i.unit
  ings_pairs_nodup : (db.ingredients.map fun i => (i.name, i.unit)).Nodup
  menus_hh : ∀ m ∈ db.menus, m.household_id = household_id
  menus_name : ∀ m ∈ db.menus, trimmed_nonempty m.name
  menus_name_nodup : (db.menus.map fun m => m.name).Nodup
  lines_unit : ∀ mi ∈ db.menu_ingredients, line_unit_ok db mi

/-- The ingredients created in order by the import's ingredient section:
one fresh row per (name, unit) pair, ids allocated from `n`. -/
def created_ingredients (household_id : Int) :
    Int → List (String × Option String) → List Ingredient
  | _, [] => []
  | n, p :: ps =>
    { id := n, household_id := household_id, name := p.1, unit := p.2 }
      :: created_ingredients household_id (n + 1) ps

/-- The unit option `save_menu_ingredients` resolves for one line triple:
the active-options lookup by the stripped unit string, when non-blank. -/
def triple_uopt (lookup : List UnitOption) (t : String × ℚ × String) : Option UnitOption :=
  let unit_clean := if t.2.2 = "" then "" else strip t.2.2
  if unit_clean = "" then none else lookup.find? fun u => u.name == unit_clean

/-- The (name, unit) key `save_menu_ingredients` uses for
`get_or_create_ingredient` on one line triple: the resolved option's name,
else the stripped unit string (or `none` when blank). -/
def triple_unit_arg (lookup : List UnitOption) (t : String × ℚ × String) : Option String :=
  match triple_uopt lookup t with
  | some o => some o.name
  | none =>
    let unit_clean := if t.2.2 = "" then "" else strip t.2.2
    if unit_clean = "" then none else some unit_clean

/-- The `MenuIngredient` row `save_menu_ingredients` inserts for one line
triple, assuming the ingredient lookup succeeds (the round-trip hypotheses
guarantee it). -/
def menu_row (lookup : List UnitOption) (ings : List Ingredient)
    (household_id menu_id : Int) (t : String × ℚ × String) : MenuIngredient :=
  { menu_id := menu_id
    ingredient_id :=
      match ings.find? fun i => i.household_id == household_id
          && i.name == strip t.1 && i.unit == triple_unit_arg lookup t with
      | some ing => ing.id
      | none => 0
    quantity := t.2.1
    unit_option_id := (triple_uopt lookup t).map fun o => o.id }

/-- The menus and menu-ingredient rows the menu section of the import
creates, in order, when every menu is new (the cleared-table scenario):
one fresh menu per entry with ids allocated from `n`, plus its rows. -/
def import_menus_expected (lookup : List UnitOption) (ings : List Ingredient)
    (household_id : Int) : Int → List ExportMenu → List Menu × List MenuIngredient
  | _, [] => ([], [])
  | n, em :: ems =>
    let r := import_menus_expected lookup ings household_id (n + 1) ems
    ({ id := n, household_id := household_id, name := strip em.name,
        description := em.description } :: r.1,
     (menu_line_triples em).map (menu_row lookup ings household_id n) ++ r.2)

/-- The state after the unit-option and ingredient sections of the import
run on the cleared table: unit options untouched, ingredients re-created
fresh from the exported (name, unit) pairs, menu tables still empty. -/
def post_ingredients_state (db : MealDB) (household_id : Int) : MealDB :=
  { unit_options := db.unit_options
    ingredients := created_ingredients household_id db.next_id
      (db.ingredients.map fun i => (i.name, i.unit))
    menus := []
    menu_ingredients := []
    next_id := db.next_id + (db.ingredients.map fun i => (i.name, i.unit)).length }

/-- The state after the whole import of the export document runs on the
cleared table: the menu section adds its expected menus and rows on top of
`post_ingredients_state`. -/
def round_trip_state (db : MealDB) (household_id : Int) : MealDB :=
  { unit_options := db.unit_options
    ingredients := created_ingredients household_id db.next_id
      (db.ingredients.map fun i => (i.name, i.unit))
    menus := (import_menus_expected (get_unit_options db household_id)
      (created_ingredients household_id db.next_id
        (db.ingredients.map fun i => (i.name, i.unit)))
      household_id
      (db.next_id + (db.ingredients.map fun i => (i.name, i.unit)).length)
      (export_household_data db household_id).menus).1
    menu_ingredients := (import_menus_expected (get_unit_options db household_id)
      (created_ingredients household_id db.next_id
        (db.ingredients.map fun i => (i.name, i.unit)))
      household_id
      (db.next_id + (db.ingredients.map fun i => (i.name, i.unit)).length)
      (export_household_data db household_id).menus).2
    next_id := db.next_id + (db.ingredients.map fun i => (i.name, i.unit)).length
      + (export_household_data db household_id).menus.length }

/-- A concrete state exhibiting the null-unit import defect: one
unit-less ingredient used by one menu. -/
def none_unit_db : MealDB :=
  { unit_options := []
    ingredients := [{ id := 1, household_id := 1, name := "A", unit := none }]
    menus := [{ id := 2, household_id := 1, name := "M", description := none }]
    menu_ingredients := [{ menu_id := 2, ingredient_id := 1, quantity := 1, unit_option_id := none }]
    next_id := 3 }

/-- A concrete well-formed state: one active unit option, one ingredient
with that unit, one menu using it. -/
def round_trip_db : MealDB :=
  { unit_options := [{ id := 1, household_id := 1, name := "個", active := true }]
    ingredients := [{ id := 2, household_id := 1, name := "りんご", unit := some "個" }]
    menus := [{ id := 3, household_id := 1, name := "パイ", description := some "甘い" }]
    menu_ingredients := [{ menu_id := 3, ingredient_id := 2, quantity := 3, unit_option_id := some 1 }]
    next_id := 4 }

/-- A concrete user, for witnesses and counterexamples. -/
def sample_user : User :=
  { id := 1, household_id := 1, email := "user@example.com", display_name := "User",
    hashed_password := "pw", is_admin := true }

/-- A concrete open task with `proposed_points = 5` and unset
`actual_points`, for witnesses and counterexamples. -/
def sample_task : Task :=
  { id := 10, household_id := 1, order_number := 1, title := "Dishes",
    description := none, category := "home", due_date := 0, proposed_points := 5,
    actual_points := none, priority := 3, status := TaskStatus.open_,
    created_by_user_id := 1, assignee_user_id := none, task_template_id := none,
    meal_plan_day_id := none, meal_slot := none, notes := none, updated_at := 0 }

/-- A concrete pending reward use costing 4 points. -/
def sample_reward_use : RewardUse :=
  { id := 20, household_id := 1, user_id := 1, reward_template_id := none,
    title := "Ice cream", cost_points := 4, status := RewardStatus.pending,
    approved_by_user_id := none, approved_at := none }

/-- A concrete task template with `relative_due_days = 2`. -/
def sample_template : TaskTemplate :=
  { id := 3, household_id := 1, title := "Laundry", default_category := some "home",
    default_points := some 4, relative_due_days := some 2, memo := none,
    instructions := none }

/-- A concrete active weekly rule for `sample_template`, due on day 100. -/
def sample_rule : RecurringTaskRule :=
  { id := 7, household_id := 1, task_template_id := 3, assignee_user_id := none,
    frequency := RecurringFrequency.weekly, next_run_date := 100, active := true }

/-- A concrete ingredient ("Onion", unit "個"). -/
def onion : Ingredient :=
  { id := 1, household_id := 1, name := "Onion", unit := some "個" }

/-- A concrete menu with id 1. -/
def soup_menu : Menu :=
  { id := 1, household_id := 1, name := "Soup", description := none }

/-- A concrete menu with id 2. -/
def salad_menu : Menu :=
  { id := 2, household_id := 1, name := "Salad", description := none }

/-- A concrete meal plan for household 1. -/
def sample_plan : MealPlan :=
  { id := 1, household_id := 1, name := "Week", start_date := 0, end_date := 6 }

/-- A concrete meal-set template. -/
def sample_meal_set : MealSetTemplate :=
  { id := 4, household_id := 1, name := "和定食", description := none }

/-- A concrete meal-plan day whose lunch slot carries `sample_meal_set`. -/
def sample_meal_day : MealPlanDay :=
  { id := 5, meal_plan_id := 1, day_date := 0, lunch_menu_id := none,
    dinner_menu_id := none, lunch_set_template_id := some 4,
    dinner_set_template_id := none }

end OrderSystem

namespace OrderSystem

/-- C8: a user's balance is the signed sum of that user's point
transactions — it is `0` on an empty ledger, and appending one transaction
of amount `A` changes exactly that user's balance by exactly `A` (every
other user's balance is unchanged), so the balance is always derived from
the append-only ledger. -/
theorem balance_is_signed_sum (txs : List PointTransaction)
    (tx : PointTransaction) (uid : Int) :
    calculate_user_balance [] uid = 0 ∧
    calculate_user_balance (txs ++ [tx]) uid
      = calculate_user_balance txs uid + (if tx.user_id = uid then tx.amount else 0) := by
  refine ⟨rfl, ?_⟩
  by_cases h : tx.user_id = uid <;>
    simp [calculate_user_balance, List.filter_append, h]

/-- C10: a successful registration creates an admin user exactly when the
household had no user yet; every later member is registered as non-admin. -/
theorem register_first_user_is_admin (users : List User) (household : Household)
    (email display_name pwhash : String) (new_id : Int) (u : User)
    (h : register users household email display_name pwhash new_id = Except.ok u) :
    u.is_admin = true ↔ ∀ x ∈ users, x.household_id ≠ household.id := by
  unfold register at h
  by_cases hc : (users.any fun v => v.email == email && v.household_id == household.id) = true
  · simp [hc] at h
  · simp only [hc] at h
    rw [if_neg] at h
    · cases h
      simp [List.any_eq_true]
    · simp [hc]

/-- C10 witness: registering into household 5 with no existing users yields
an admin user. -/
theorem register_first_user_is_admin_witness :
    (({ id := 1, household_id := 5, email := "a@b.c", display_name := "A",
        hashed_password := "h", is_admin := true } : User).is_admin = true
      ↔ ∀ x ∈ ([] : List User), x.household_id ≠ (5 : Int)) :=
  register_first_user_is_admin [] { id := 5, name := "H", join_code := "j" }
    "a@b.c" "A" "h" 1 _ rfl

/-- C2: an (action, status) pair outside the transition table is rejected
with the invalid-action error and leaves the persisted task and ledger
entirely unchanged. -/
theorem invalid_action_leaves_state_unchanged (task : Task) (actor : User)
    (action : String) (actual_points : Option Int) (txs : List PointTransaction)
    (now : Int) (h : ¬ valid_task_action action task.status) :
    apply_task_action task actor action actual_points txs now = ((task, txs), false) := by
  unfold valid_task_action at h
  have h1 : ¬(action = "claim" ∧ task.status = TaskStatus.open_) :=
    fun hx => h (Or.inl hx)
  have h2 : ¬(action = "start" ∧ (task.status = TaskStatus.assigned ∨ task.status = TaskStatus.open_)) :=
    fun hx => h (Or.inr (Or.inl hx))
  have h3 : ¬(action = "complete" ∧ (task.status = TaskStatus.in_progress ∨ task.status = TaskStatus.assigned)) :=
    fun hx => h (Or.inr (Or.inr (Or.inl hx)))
  have h4 : ¬(action = "approve" ∧ task.status = TaskStatus.completed) :=
    fun hx => h (Or.inr (Or.inr (Or.inr (Or.inl hx))))
  have h5 : ¬(action = "cancel" ∧ ¬(task.status = TaskStatus.approved ∨ task.status = TaskStatus.cancelled)) :=
    fun hx => h (Or.inr (Or.inr (Or.inr (Or.inr hx))))
  unfold apply_task_action update_task_status
  rw [if_neg h1, if_neg h2, if_neg h3, if_neg h4, if_neg h5]

/-- C2 witness: `claim` on an approved task is rejected without any state
change. -/
theorem invalid_action_leaves_state_unchanged_witness :
    apply_task_action { sample_task with status := TaskStatus.approved } sample_user
      "claim" (some 3) [] 7
      = (({ sample_task with status := TaskStatus.approved }, []), false) :=
  invalid_action_leaves_state_unchanged _ sample_user "claim" (some 3) [] 7
    (by decide)

/-- C3 counterexample: `claim` on an open task with unset `actual_points`
also writes `actual_points := proposed_points` (lines 2898-2901 run before
the dispatch and are committed with the claim), so the action does not
leave every field other than assignee and status unchanged. -/
theorem claim_mutates_actual_points_counterexample :
    (update_task_status sample_task sample_user "claim" none [] 0).map
        (fun st => st.1.actual_points) = Except.ok (some 5) ∧
    sample_task.actual_points = none ∧ (some (5 : Int) ≠ (none : Option Int)) :=
  ⟨rfl, rfl, by decide⟩

/-- C3 amended: `claim` on an open task sets the assignee to the actor, the
status to `assigned`, `updated_at` to now, and additionally sets
`actual_points` to the supplied form value when one is given, or to
`proposed_points` when `actual_points` was unset; all other fields are
unchanged, and no point transaction is inserted. -/
theorem claim_effect (task : Task) (actor : User) (supplied : Option Int)
    (txs : List PointTransaction) (now : Int)
    (h : task.status = TaskStatus.open_) :
    update_task_status task actor "claim" supplied txs now = Except.ok
      ({ task with
          assignee_user_id := some actor.id
          status := TaskStatus.assigned
          actual_points :=
            if supplied.isSome then supplied
            else if task.actual_points = none then some task.proposed_points
            else task.actual_points
          updated_at := now }, txs) := by
  cases supplied <;> cases htap : task.actual_points <;>
    simp [update_task_status, h, htap]

/-- C1 counterexample: approving a completed task with supplied
`actual_points = 0`, existing `actual_points = 7` and `proposed_points = 5`
stores `5`: the supplied value first overwrites the existing one, then the
falsy-coalescing chain skips both zeros, so the result is neither the
supplied value (`0`, first-available reading of "supplied or existing or
proposed") nor the existing value (`7`, falsy-coalescing reading). -/
theorem approve_points_rule_counterexample :
    (update_task_status { sample_task with status := TaskStatus.completed, actual_points := some 7 }
        sample_user "approve" (some 0) [] 0).map (fun st => st.1.actual_points)
      = Except.ok (some 5) ∧
    claimed_approve_points (some 0) (some 7) 5 = 0 ∧
    py_or_int (some 0) (py_or_int (some 7) 5) = 7 ∧
    (5 : Int) ≠ 0 ∧ (5 : Int) ≠ 7 :=
  ⟨rfl, rfl, rfl, by decide, by decide⟩

/-- C1 amended: approving a completed task sets the status to `approved`
and `actual_points` to the supplied value if it is nonzero, to
`proposed_points` if the supplied value is `0` (the supplied zero first
overwrites the existing value), and otherwise to the existing
`actual_points` if nonzero, else `proposed_points`; exactly one earn
transaction of that amount targeting the assignee (falling back to the
creator) is inserted iff no transaction references the task yet; and a
second `approve` is rejected without committing anything, so two
sequential approves leave exactly one transaction referencing the task. -/
theorem approve_pays_at_most_once (task : Task) (actor : User)
    (supplied : Option Int) (txs : List PointTransaction) (now now2 : Int)
    (hst : task.status = TaskStatus.completed) :
    ((txs.filter fun tx => tx.related_task_id == some task.id) = [] →
      update_task_status task actor "approve" supplied txs now = Except.ok
        ({ task with
            status := TaskStatus.approved
            actual_points := some (approve_actual_points supplied task.actual_points task.proposed_points)
            updated_at := now },
          txs ++ [{
            household_id := actor.household_id
            user_id := py_or_int task.assignee_user_id task.created_by_user_id
            amount := approve_actual_points supplied task.actual_points task.proposed_points
            transaction_type := PointTransactionType.earn
            description := "Task " ++ task.title ++ " approved"
            related_task_id := some task.id
            related_reward_use_id := none }]) ∧
      (∀ tx2 txs2,
        update_task_status task actor "approve" supplied txs now = Except.ok (tx2, txs2) →
        apply_task_action tx2 actor "approve" supplied txs2 now2 = ((tx2, txs2), false) ∧
        (txs2.filter fun tx => tx.related_task_id == some task.id).length = 1)) ∧
    ((txs.filter fun tx => tx.related_task_id == some task.id) ≠ [] →
      update_task_status task actor "approve" supplied txs now = Except.ok
        ({ task with
            status := TaskStatus.approved
            actual_points := some (approve_actual_points supplied task.actual_points task.proposed_points)
            updated_at := now }, txs)) := by
  have hpts : py_or_int supplied
      (py_or_int (if supplied.isSome then supplied else task.actual_points) task.proposed_points)
      = approve_actual_points supplied task.actual_points task.proposed_points := by
    cases supplied with
    | none => rfl
    | some s =>
      by_cases hs : s = 0 <;> simp [py_or_int, approve_actual_points, hs]
  constructor
  · intro hno
    have hbody : update_task_status task actor "approve" supplied txs now = Except.ok
        ({ task with
            status := TaskStatus.approved
            actual_points := some (approve_actual_points supplied task.actual_points task.proposed_points)
            updated_at := now },
          txs ++ [{
            household_id := actor.household_id
            user_id := py_or_int task.assignee_user_id task.created_by_user_id
            amount := approve_actual_points supplied task.actual_points task.proposed_points
            transaction_type := PointTransactionType.earn
            description := "Task " ++ task.title ++ " approved"
            related_task_id := some task.id
            related_reward_use_id := none }]) := by
      cases hsup : supplied with
      | none =>
        cases htap : task.actual_points <;>
          simp_all [update_task_status, approve_actual_points, hst, hno, List.isEmpty_iff]
      | some s =>
        have := hpts
        rw [hsup] at this
        simp_all [update_task_status, hst, hno, List.isEmpty_iff]
    refine ⟨hbody, ?_⟩
    intro tx2 txs2 hrun
    rw [hbody] at hrun
    cases hrun
    constructor
    · simp [apply_task_action, update_task_status]
    · simp [List.filter_append, hno]
  · intro hyes
    cases hsup : supplied with
    | none =>
      cases htap : task.actual_points <;>
        simp_all [update_task_status, approve_actual_points, hst, List.isEmpty_iff]
    | some s =>
      have := hpts
      rw [hsup] at this
      simp_all [update_task_status, hst, List.isEmpty_iff]

/-- C1 witness: approving the completed sample task (no supplied value,
unset `actual_points`, `proposed_points = 5`) pays 5 points to the creator
once, and a second approve changes nothing. -/
theorem approve_pays_at_most_once_witness :
    (((List.nil : List PointTransaction).filter
        fun tx => tx.related_task_id == some ({ sample_task with status := TaskStatus.completed } : Task).id) = [] →
      update_task_status { sample_task with status := TaskStatus.completed } sample_user "approve" none [] 1
        = Except.ok
        ({ { sample_task with status := TaskStatus.completed } with
            status := TaskStatus.approved
            actual_points := some (approve_actual_points none
              ({ sample_task with status := TaskStatus.completed } : Task).actual_points
              ({ sample_task with status := TaskStatus.completed } : Task).proposed_points)
            updated_at := 1 },
          [] ++ [{
            household_id := sample_user.household_id
            user_id := py_or_int ({ sample_task with status := TaskStatus.completed } : Task).assignee_user_id
              ({ sample_task with status := TaskStatus.completed } : Task).created_by_user_id
            amount := approve_actual_points none
              ({ sample_task with status := TaskStatus.completed } : Task).actual_points
              ({ sample_task with status := TaskStatus.completed } : Task).proposed_points
            transaction_type := PointTransactionType.earn
            description := "Task " ++ ({ sample_task with status := TaskStatus.completed } : Task).title ++ " approved"
            related_task_id := some ({ sample_task with status := TaskStatus.completed } : Task).id
            related_reward_use_id := none }]) ∧
      (∀ tx2 txs2,
        update_task_status { sample_task with status := TaskStatus.completed } sample_user "approve" none [] 1
          = Except.ok (tx2, txs2) →
        apply_task_action tx2 sample_user "approve" none txs2 2 = ((tx2, txs2), false) ∧
        (txs2.filter fun tx => tx.related_task_id == some ({ sample_task with status := TaskStatus.completed } : Task).id).length = 1)) ∧
    (((List.nil : List PointTransaction).filter
        fun tx => tx.related_task_id == some ({ sample_task with status := TaskStatus.completed } : Task).id) ≠ [] →
      update_task_status { sample_task with status := TaskStatus.completed } sample_user "approve" none [] 1
        = Except.ok
        ({ { sample_task with status := TaskStatus.completed } with
            status := TaskStatus.approved
            actual_points := some (approve_actual_points none
              ({ sample_task with status := TaskStatus.completed } : Task).actual_points
              ({ sample_task with status := TaskStatus.completed } : Task).proposed_points)
            updated_at := 1 }, [])) :=
  approve_pays_at_most_once { sample_task with status := TaskStatus.completed }
    sample_user none [] 1 2 rfl

/-- C6: on a pending reward use, `approve` sets the status to approved and
inserts exactly one spend transaction of amount `-abs(cost_points)`
referencing the reward use when none references it yet, and a second
approve is rejected without committing, so two approves leave exactly one
such transaction; `reject` sets the status to rejected and inserts nothing;
and on an already approved or rejected reward use both actions are
invalid-action errors with no state change. -/
theorem reward_use_flow (ru : RewardUse) (actor : User)
    (txs : List PointTransaction) (now now2 : Int) :
    (ru.status = RewardStatus.pending →
      (txs.filter fun tx => tx.related_reward_use_id == some ru.id) = [] →
      handle_reward_use ru actor "approve" txs now = Except.ok
        ({ ru with
            status := RewardStatus.approved
            approved_by_user_id := some actor.id
            approved_at := some now },
          txs ++ [{
            household_id := actor.household_id
            user_id := ru.user_id
            amount := -|ru.cost_points|
            transaction_type := PointTransactionType.spend
            description := "Reward approved: " ++ ru.title
            related_task_id := none
            related_reward_use_id := some ru.id }]) ∧
      (∀ ru2 txs2, handle_reward_use ru actor "approve" txs now = Except.ok (ru2, txs2) →
        apply_reward_action ru2 actor "approve" txs2 now2 = ((ru2, txs2), false) ∧
        (txs2.filter fun tx => tx.related_reward_use_id == some ru.id).length = 1)) ∧
    (ru.status = RewardStatus.pending →
      handle_reward_use ru actor "reject" txs now
        = Except.ok ({ ru with status := RewardStatus.rejected }, txs)) ∧
    (ru.status = RewardStatus.approved ∨ ru.status = RewardStatus.rejected →
      apply_reward_action ru actor "approve" txs now = ((ru, txs), false) ∧
      apply_reward_action ru actor "reject" txs now = ((ru, txs), false)) := by
  refine ⟨?_, ?_, ?_⟩
  · intro hp hno
    have hbody : handle_reward_use ru actor "approve" txs now = Except.ok
        ({ ru with
            status := RewardStatus.approved
            approved_by_user_id := some actor.id
            approved_at := some now },
          txs ++ [{
            household_id := actor.household_id
            user_id := ru.user_id
            amount := -|ru.cost_points|
            transaction_type := PointTransactionType.spend
            description := "Reward approved: " ++ ru.title
            related_task_id := none
            related_reward_use_id := some ru.id }]) := by
      simp [handle_reward_use, hp, hno, List.isEmpty_iff]
    refine ⟨hbody, ?_⟩
    intro ru2 txs2 hrun
    rw [hbody] at hrun
    cases hrun
    constructor
    · simp [apply_reward_action, handle_reward_use]
    · simp [List.filter_append, hno]
  · intro hp
    simp [handle_reward_use, hp]
  · intro hterm
    rcases hterm with hterm | hterm <;>
      simp [apply_reward_action, handle_reward_use, hterm]

/-- C6 witness: approving the pending sample reward use (cost 4) inserts
one spend transaction of amount `-4`, a second approve changes nothing,
and rejecting instead has no financial effect. -/
theorem reward_use_flow_witness :
    (sample_reward_use.status = RewardStatus.pending →
      ((List.nil : List PointTransaction).filter
        fun tx => tx.related_reward_use_id == some sample_reward_use.id) = [] →
      handle_reward_use sample_reward_use sample_user "approve" [] 1 = Except.ok
        ({ sample_reward_use with
            status := RewardStatus.approved
            approved_by_user_id := some sample_user.id
            approved_at := some 1 },
          [] ++ [{
            household_id := sample_user.household_id
            user_id := sample_reward_use.user_id
            amount := -|sample_reward_use.cost_points|
            transaction_type := PointTransactionType.spend
            description := "Reward approved: " ++ sample_reward_use.title
            related_task_id := none
            related_reward_use_id := some sample_reward_use.id }]) ∧
      (∀ ru2 txs2, handle_reward_use sample_reward_use sample_user "approve" [] 1 = Except.ok (ru2, txs2) →
        apply_reward_action ru2 sample_user "approve" txs2 2 = ((ru2, txs2), false) ∧
        (txs2.filter fun tx => tx.related_reward_use_id == some sample_reward_use.id).length = 1)) ∧
    (sample_reward_use.status = RewardStatus.pending →
      handle_reward_use sample_reward_use sample_user "reject" [] 1
        = Except.ok ({ sample_reward_use with status := RewardStatus.rejected }, [])) ∧
    (sample_reward_use.status = RewardStatus.approved ∨ sample_reward_use.status = RewardStatus.rejected →
      apply_reward_action sample_reward_use sample_user "approve" [] 1 = ((sample_reward_use, []), false) ∧
      apply_reward_action sample_reward_use sample_user "reject" [] 1 = ((sample_reward_use, []), false)) :=
  reward_use_flow sample_reward_use sample_user [] 1 2

/-- A rule whose selection condition fails is left unchanged and creates
no task. -/
theorem run_recurring_rules_skip (templates : List TaskTemplate)
    (household_id created_by_user_id today : Int) (tasks : List Task)
    (rule : RecurringTaskRule)
    (h : ¬(rule.household_id = household_id ∧ rule.active = true
        ∧ rule.next_run_date ≤ today)) :
    run_recurring_rules templates household_id created_by_user_id today tasks [rule]
      = ([rule], []) := by
  unfold run_recurring_rules
  rw [if_neg h]
  rfl

/-- C4: an active rule of the household with `next_run_date <= today` fires
exactly once per invocation: one task is instantiated from the linked
template with `due_date = today + relative_due_days` (today when unset),
`next_run_date` jumps to `today` plus 1/7/30 days for daily/weekly/monthly
(however far behind the rule was), and a second invocation the same day
creates no task for the rule. -/
theorem recurring_rule_fires_once (templates : List TaskTemplate)
    (template : TaskTemplate) (rule : RecurringTaskRule)
    (household_id created_by_user_id today : Int) (tasks tasks2 : List Task)
    (hhh : rule.household_id = household_id) (hact : rule.active = true)
    (hdue : rule.next_run_date ≤ today)
    (htpl : (templates.find? fun t => t.id == rule.task_template_id) = some template) :
    run_recurring_rules templates household_id created_by_user_id today tasks [rule]
      = ([{ rule with next_run_date := today + freq_offset rule.frequency }],
         [rule_task template rule household_id created_by_user_id today
            (next_order_number tasks household_id)]) ∧
    (rule_task template rule household_id created_by_user_id today
        (next_order_number tasks household_id)).due_date
      = today + (match template.relative_due_days with | some d => d | none => 0) ∧
    freq_offset RecurringFrequency.daily = 1 ∧
    freq_offset RecurringFrequency.weekly = 7 ∧
    freq_offset RecurringFrequency.monthly = 30 ∧
    (run_recurring_rules templates household_id created_by_user_id today tasks2
        [{ rule with next_run_date := today + freq_offset rule.frequency }]).2 = [] := by
  refine ⟨?_, rfl, rfl, rfl, rfl, ?_⟩
  · simp [run_recurring_rules, hhh, hact, hdue, htpl]
  · have hoff : 1 ≤ freq_offset rule.frequency := by
      cases rule.frequency <;> decide
    have hcond : ¬(({ rule with next_run_date := today + freq_offset rule.frequency } : RecurringTaskRule).household_id = household_id
        ∧ ({ rule with next_run_date := today + freq_offset rule.frequency } : RecurringTaskRule).active = true
        ∧ ({ rule with next_run_date := today + freq_offset rule.frequency } : RecurringTaskRule).next_run_date ≤ today) := by
      rintro ⟨-, -, hle⟩
      simp only at hle
      omega
    rw [run_recurring_rules_skip templates household_id created_by_user_id today
      tasks2 _ hcond]

/-- C4 witness: the weekly `sample_rule`, due on day 100, fires once on day
100, advancing to day 107; running again the same day creates nothing. -/
theorem recurring_rule_fires_once_witness :
    run_recurring_rules [sample_template] 1 1 100 [] [sample_rule]
      = ([{ sample_rule with next_run_date := 100 + freq_offset sample_rule.frequency }],
         [rule_task sample_template sample_rule 1 1 100 (next_order_number [] 1)]) ∧
    (rule_task sample_template sample_rule 1 1 100 (next_order_number [] 1)).due_date
      = 100 + (match sample_template.relative_due_days with | some d => d | none => 0) ∧
    freq_offset RecurringFrequency.daily = 1 ∧
    freq_offset RecurringFrequency.weekly = 7 ∧
    freq_offset RecurringFrequency.monthly = 30 ∧
    (run_recurring_rules [sample_template] 1 1 100 []
        [{ sample_rule with next_run_date := 100 + freq_offset sample_rule.frequency }]).2 = [] :=
  recurring_rule_fires_once [sample_template] sample_template sample_rule 1 1 100 [] []
    rfl rfl (by decide) rfl

/-- Appending a day of the plan to the day table applies one collection
step to the legacy menu-id set. -/
theorem plan_day_menu_ids_append (plan : MealPlan) (days : List MealPlanDay)
    (d : MealPlanDay) (h : d.meal_plan_id = plan.id) :
    plan_day_menu_ids plan (days ++ [d]) =
      (let acc := plan_day_menu_ids plan days
       let acc1 := match d.lunch_menu_id with
         | some m => if m ≠ 0 then set_insert acc m else acc
         | none => acc
       match d.dinner_menu_id with
       | some m => if m ≠ 0 then set_insert acc1 m else acc1
       | none => acc1) := by
  unfold plan_day_menu_ids
  rw [List.filter_append]
  have hd : (List.filter (fun d' => d'.meal_plan_id == plan.id) [d]) = [d] := by
    simp [h]
  rw [hd, List.foldl_append]
  rfl

/-- C5 counterexample: one menu containing Onion/個 at quantity 1,
referenced as the lunch menu of two different days of the plan, aggregates
to 1 — each referenced menu is counted once (the ids form a set) — whereas
the claim's occurrence-weighted reading yields 2. -/
theorem aggregate_double_reference_counterexample :
    aggregate_total [soup_menu] [⟨1, 1, 1, none⟩] [onion] sample_plan
        [⟨1, 1, 0, some 1, none, none, none⟩, ⟨2, 1, 1, some 1, none, none, none⟩] []
        "Onion" (some "個") = 1 ∧
    claimed_occurrence_total [soup_menu] [⟨1, 1, 1, none⟩] [onion] sample_plan
        [⟨1, 1, 0, some 1, none, none, none⟩, ⟨2, 1, 1, some 1, none, none, none⟩] []
        "Onion" (some "個") = 2 ∧
    (1 : ℚ) ≠ 2 := by
  refine ⟨?_, ?_, by norm_num⟩
  · norm_num [aggregate_total, plan_menu_ids, plan_day_menu_ids, set_insert,
      soup_menu, onion, sample_plan]
  · norm_num [claimed_occurrence_total, soup_menu, onion, sample_plan]

/-- C5 amended: the aggregation sums each (name, unit) group over the
*distinct* menus referenced by the plan's days and selections — a menu
already referenced contributes nothing more when a further day references
it again — and two distinct menus both containing Onion/個, at quantities
1 and 2, aggregate to 3 for ("Onion", "個"). -/
theorem aggregate_sums_each_menu_once (menus : List Menu)
    (menu_ingredients : List MenuIngredient) (ingredients : List Ingredient)
    (plan : MealPlan) (days : List MealPlanDay)
    (selections : List MealPlanSelection) (d : MealPlanDay) (m : Int)
    (name : String) (unit : Option String)
    (hplan : d.meal_plan_id = plan.id) (hlunch : d.lunch_menu_id = some m)
    (hdinner : d.dinner_menu_id = none) (hm : m ≠ 0)
    (hmem : m ∈ plan_day_menu_ids plan days)
    (hsel : ∀ s ∈ selections, ¬ (d.id = s.meal_plan_day_id)) :
    aggregate_total menus menu_ingredients ingredients plan (days ++ [d])
        selections name unit
      = aggregate_total menus menu_ingredients ingredients plan days
        selections name unit ∧
    aggregate_total [soup_menu, salad_menu] [⟨1, 1, 1, none⟩, ⟨2, 1, 2, none⟩]
        [onion] sample_plan [⟨1, 1, 0, some 1, some 2, none, none⟩] []
        "Onion" (some "個") = 3 := by
  constructor
  · have hpd : plan_day_menu_ids plan (days ++ [d]) = plan_day_menu_ids plan days := by
      rw [plan_day_menu_ids_append plan days d hplan]
      simp [hlunch, hdinner, hm, set_insert, hmem]
    have hq : plan_menu_ids plan (days ++ [d]) selections
        = plan_menu_ids plan days selections := by
      unfold plan_menu_ids
      rw [hpd]
      have hfil : (selections.filter fun s =>
          (List.filter (fun d' => d'.meal_plan_id == plan.id) (days ++ [d])).any
            fun d' => d'.id == s.meal_plan_day_id)
          = (selections.filter fun s =>
          (List.filter (fun d' => d'.meal_plan_id == plan.id) days).any
            fun d' => d'.id == s.meal_plan_day_id) := by
        apply List.filter_congr
        intro s hs
        rw [List.filter_append]
        have hd : (List.filter (fun d' => d'.meal_plan_id == plan.id) [d]) = [d] := by
          simp [hplan]
        rw [hd, List.any_append]
        simp [hsel s hs]
      rw [hfil]
    unfold aggregate_total
    rw [hq]
  · norm_num [aggregate_total, plan_menu_ids, plan_day_menu_ids, set_insert,
      soup_menu, salad_menu, onion, sample_plan]

/-- C5 witness: a second day referencing the already-referenced menu 1
leaves the Onion/個 total unchanged, and the two-menu Onion instance
aggregates to 3. -/
theorem aggregate_sums_each_menu_once_witness :
    aggregate_total [soup_menu] [⟨1, 1, 1, none⟩] [onion] sample_plan
        ([⟨1, 1, 0, some 1, none, none, none⟩] ++ [⟨2, 1, 1, some 1, none, none, none⟩]) []
        "Onion" (some "個")
      = aggregate_total [soup_menu] [⟨1, 1, 1, none⟩] [onion] sample_plan
        [⟨1, 1, 0, some 1, none, none, none⟩] [] "Onion" (some "個") ∧
    aggregate_total [soup_menu, salad_menu] [⟨1, 1, 1, none⟩, ⟨2, 1, 2, none⟩]
        [onion] sample_plan [⟨1, 1, 0, some 1, some 2, none, none⟩] []
        "Onion" (some "個") = 3 :=
  aggregate_sums_each_menu_once [soup_menu] [⟨1, 1, 1, none⟩] [onion] sample_plan
    [⟨1, 1, 0, some 1, none, none, none⟩] [] ⟨2, 1, 1, some 1, none, none, none⟩ 1
    "Onion" (some "個") rfl rfl rfl (by decide) (by decide) (by intro s hs; cases hs)

/-- C7 counterexample: a meal-plan day whose lunch slot has a legacy menu
id (and no set-template id and no structured selections) yields no
generated task — `run_meal_plan_tasks` triggers on the slot's set-template
id, not on the legacy menu id — although the claim's trigger condition
holds for the slot. -/
theorem meal_task_legacy_menu_counterexample :
    run_meal_plan_tasks [sample_plan] [soup_menu] [] [] 1 1 10 []
        [⟨5, 1, 0, some 1, none, none, none⟩] = [] ∧
    claimed_slot_trigger ⟨5, 1, 0, some 1, none, none, none⟩ MealSlot.lunch [] = true :=
  ⟨rfl, rfl⟩

/-- C7 amended: for a household day with `day_date <= today` whose lunch
slot carries a resolvable meal-set template id and whose dinner slot
carries no set-template id but has structured selections (the trigger of
each slot is its set-template id or its structured selections, not the
legacy menu id), with no generated task yet, one invocation creates
exactly one task per triggered slot, each with `proposed_points = 2`,
`priority = 2`, `category = "meal"`, the day's date as due date and
status open, linked to its (day, slot): the lunch task titled from the
slot label and the meal-set name, the dinner task titled from the slot
label, the `献立` fallback label and the selected menu names, which also
form its description; a second invocation creates no further task. -/
theorem meal_plan_task_generation (plans : List MealPlan) (menus : List Menu)
    (sets : List MealSetTemplate) (selections : List MealPlanSelection)
    (household_id created_by_user_id today : Int) (tasks : List Task)
    (day : MealPlanDay) (stpl : MealSetTemplate) (names : List String)
    (hplan : (plans.any fun p => p.id == day.meal_plan_id
      && p.household_id == household_id) = true)
    (hdate : day.day_date ≤ today)
    (hset : py_truthy_int day.lunch_set_template_id = true)
    (hlook : lookup_set_template sets household_id day.lunch_set_template_id = some stpl)
    (hname : stpl.name ≠ "")
    (hlsel : slot_selections selections day MealSlot.lunch = [])
    (hdset : day.dinner_set_template_id = none)
    (hdsel : ¬ slot_selections selections day MealSlot.dinner = [])
    (hnames : (slot_selections selections day MealSlot.dinner).filterMap
      (fun s => (lookup_menu menus household_id s.menu_id).map fun m => m.name) = names)
    (hnames_ne : ¬ names = [])
    (hjoin : ¬ String.intercalate "\n" names = "")
    (hex : ∀ t ∈ tasks, (t.meal_plan_day_id == some day.id) = false) :
    ∃ t1 t2, run_meal_plan_tasks plans menus sets selections household_id
        created_by_user_id today tasks [day] = [t1, t2] ∧
      t1.title = "昼食準備: " ++ stpl.name ∧
      t1.description = none ∧
      t1.category = "meal" ∧ t1.due_date = day.day_date ∧
      t1.proposed_points = 2 ∧ t1.priority = 2 ∧
      t1.meal_plan_day_id = some day.id ∧ t1.meal_slot = some MealSlot.lunch ∧
      t1.status = TaskStatus.open_ ∧
      t2.title = "夕食準備: 献立 (" ++ String.intercalate ", " names ++ ")" ∧
      t2.description = some (String.intercalate "\n" names) ∧
      t2.category = "meal" ∧ t2.due_date = day.day_date ∧
      t2.proposed_points = 2 ∧ t2.priority = 2 ∧
      t2.meal_plan_day_id = some day.id ∧ t2.meal_slot = some MealSlot.dinner ∧
      t2.status = TaskStatus.open_ ∧
      run_meal_plan_tasks plans menus sets selections household_id
        created_by_user_id today (tasks ++ [t1, t2]) [day] = [] := by
  obtain ⟨n, ns, rfl⟩ : ∃ a l, names = a :: l := by
    cases names with
    | nil => exact absurd rfl hnames_ne
    | cons a l => exact ⟨a, l, rfl⟩
  have htrig : ¬(¬ py_truthy_int (slot_set_id day MealSlot.lunch) = true
      ∧ slot_selections selections day MealSlot.lunch = []) := by
    rintro ⟨h1, -⟩
    exact h1 hset
  have htrig2 : ¬(¬ py_truthy_int (slot_set_id day MealSlot.dinner) = true
      ∧ slot_selections selections day MealSlot.dinner = []) := by
    rintro ⟨-, h2⟩
    exact hdsel h2
  have hlabel : slot_set_label sets household_id (slot_set_id day MealSlot.lunch)
      = stpl.name := by
    unfold slot_set_label
    simp only [slot_set_id]
    rw [if_pos hset]
    rw [hlook]
  have hlabel2 : slot_set_label sets household_id (slot_set_id day MealSlot.dinner)
      = "" := by
    simp only [slot_set_id, hdset]
    rfl
  have htitle : meal_task_title MealSlot.lunch stpl.name [] = "昼食準備: " ++ stpl.name := by
    unfold meal_task_title
    simp only [List.isEmpty_nil, if_true]
    unfold py_or_str
    rw [if_neg hname]
    have h : meal_slot_label MealSlot.lunch ++ "準備: " = "昼食準備: " := rfl
    rw [← h, String.append_assoc]
  have htitle2 : meal_task_title MealSlot.dinner "" (n :: ns)
      = "夕食準備: 献立 (" ++ String.intercalate ", " (n :: ns) ++ ")" := rfl
  have hslne : (some MealSlot.lunch == some MealSlot.dinner) = false := by decide
  have hany_none : ∀ slot : MealSlot, (tasks.any fun t => t.household_id == household_id
      && t.meal_plan_day_id == some day.id && t.meal_slot == some slot) = false := by
    intro slot
    rw [List.any_eq_false]
    intro t ht
    simp [hex t ht]
  have hlunchsome : ∀ ts : List Task, ((ts.any fun t => t.household_id == household_id
      && t.meal_plan_day_id == some day.id && t.meal_slot == some MealSlot.lunch)
        = false) →
      run_meal_plan_slot menus sets selections household_id created_by_user_id ts day
        MealSlot.lunch = some {
          id := 0
          household_id := household_id
          order_number := next_order_number ts household_id
          title := "昼食準備: " ++ stpl.name
          description := none
          category := "meal"
          due_date := day.day_date
          proposed_points := 2
          actual_points := none
          priority := 2
          status := TaskStatus.open_
          created_by_user_id := created_by_user_id
          assignee_user_id := none
          task_template_id := none
          meal_plan_day_id := some day.id
          meal_slot := some MealSlot.lunch
          notes := none
          updated_at := 0 } := by
    intro ts hts
    unfold run_meal_plan_slot
    rw [if_neg htrig]
    rw [if_neg (by simp [hts])]
    rw [hlsel]
    simp only [List.filterMap_nil, List.isEmpty_nil, if_true, hlabel, htitle]
  have hdinsome : ∀ ts : List Task, ((ts.any fun t => t.household_id == household_id
      && t.meal_plan_day_id == some day.id && t.meal_slot == some MealSlot.dinner)
        = false) →
      run_meal_plan_slot menus sets selections household_id created_by_user_id ts day
        MealSlot.dinner = some {
          id := 0
          household_id := household_id
          order_number := next_order_number ts household_id
          title := "夕食準備: 献立 (" ++ String.intercalate ", " (n :: ns) ++ ")"
          description := some (String.intercalate "\n" (n :: ns))
          category := "meal"
          due_date := day.day_date
          proposed_points := 2
          actual_points := none
          priority := 2
          status := TaskStatus.open_
          created_by_user_id := created_by_user_id
          assignee_user_id := none
          task_template_id := none
          meal_plan_day_id := some day.id
          meal_slot := some MealSlot.dinner
          notes := none
          updated_at := 0 } := by
    intro ts hts
    unfold run_meal_plan_slot
    rw [if_neg htrig2]
    rw [if_neg (by simp [hts])]
    rw [hnames]
    simp only [hlabel2, htitle2]
    have hd_eq : (if (n :: ns).isEmpty = true then ""
        else String.intercalate "\n" (n :: ns)) = String.intercalate "\n" (n :: ns) := rfl
    try rw [hd_eq]
    rw [if_neg hjoin]
  have hlunchnone : ∀ ts : List Task, ((ts.any fun t => t.household_id == household_id
      && t.meal_plan_day_id == some day.id && t.meal_slot == some MealSlot.lunch)
        = true) →
      run_meal_plan_slot menus sets selections household_id created_by_user_id ts day
        MealSlot.lunch = none := by
    intro ts hts
    unfold run_meal_plan_slot
    rw [if_neg htrig]
    rw [if_pos hts]
  have hdinnone : ∀ ts : List Task, ((ts.any fun t => t.household_id == household_id
      && t.meal_plan_day_id == some day.id && t.meal_slot == some MealSlot.dinner)
        = true) →
      run_meal_plan_slot menus sets selections household_id created_by_user_id ts day
        MealSlot.dinner = none := by
    intro ts hts
    unfold run_meal_plan_slot
    rw [if_neg htrig2]
    rw [if_pos hts]
  have hrun_none : ∀ ts : List Task, ((ts.any fun t => t.household_id == household_id
      && t.meal_plan_day_id == some day.id && t.meal_slot == some MealSlot.lunch)
        = true) →
      ((ts.any fun t => t.household_id == household_id
      && t.meal_plan_day_id == some day.id && t.meal_slot == some MealSlot.dinner)
        = true) →
      run_meal_plan_tasks plans menus sets selections household_id created_by_user_id
        today ts [day] = [] := by
    intro ts hl hd
    unfold run_meal_plan_tasks
    rw [if_pos ⟨hplan, hdate⟩]
    rw [hlunchnone ts hl, hdinnone ts hd]
    rfl
  have h1 := hlunchsome tasks (hany_none MealSlot.lunch)
  have h2 := hdinsome (tasks ++ [{
      id := 0
      household_id := household_id
      order_number := next_order_number tasks household_id
      title := "昼食準備: " ++ stpl.name
      description := none
      category := "meal"
      due_date := day.day_date
      proposed_points := 2
      actual_points := none
      priority := 2
      status := TaskStatus.open_
      created_by_user_id := created_by_user_id
      assignee_user_id := none
      task_template_id := none
      meal_plan_day_id := some day.id
      meal_slot := some MealSlot.lunch
      notes := none
      updated_at := 0 }])
    (by rw [List.any_append, hany_none MealSlot.dinner]; simp [hslne])
  refine ⟨{
      id := 0
      household_id := household_id
      order_number := next_order_number tasks household_id
      title := "昼食準備: " ++ stpl.name
      description := none
      category := "meal"
      due_date := day.day_date
      proposed_points := 2
      actual_points := none
      priority := 2
      status := TaskStatus.open_
      created_by_user_id := created_by_user_id
      assignee_user_id := none
      task_template_id := none
      meal_plan_day_id := some day.id
      meal_slot := some MealSlot.lunch
      notes := none
      updated_at := 0 }, {
      id := 0
      household_id := household_id
      order_number := next_order_number (tasks ++ [{
        id := 0
        household_id := household_id
        order_number := next_order_number tasks household_id
        title := "昼食準備: " ++ stpl.name
        description := none
        category := "meal"
        due_date := day.day_date
        proposed_points := 2
        actual_points := none
        priority := 2
        status := TaskStatus.open_
        created_by_user_id := created_by_user_id
        assignee_user_id := none
        task_template_id := none
        meal_plan_day_id := some day.id
        meal_slot := some MealSlot.lunch
        notes := none
        updated_at := 0 }]) household_id
      title := "夕食準備: 献立 (" ++ String.intercalate ", " (n :: ns) ++ ")"
      description := some (String.intercalate "\n" (n :: ns))
      category := "meal"
      due_date := day.day_date
      proposed_points := 2
      actual_points := none
      priority := 2
      status := TaskStatus.open_
      created_by_user_id := created_by_user_id
      assignee_user_id := none
      task_template_id := none
      meal_plan_day_id := some day.id
      meal_slot := some MealSlot.dinner
      notes := none
      updated_at := 0 }, ?_, rfl, rfl, rfl, rfl, rfl, rfl, rfl, rfl, rfl, rfl, rfl,
    rfl, rfl, rfl, rfl, rfl, rfl, rfl, ?_⟩
  · unfold run_meal_plan_tasks
    rw [if_pos ⟨hplan, hdate⟩]
    simp only [h1, h2]
    try rfl
  · exact hrun_none _ (by simp [List.any_append]) (by simp [List.any_append])

/-- C7 witness: the sample day carrying `sample_meal_set` on its lunch slot
and two structured dinner selections (Soup then Salad) generates exactly
one lunch task titled from the set name and one dinner task titled from
the fallback label and the menu names, and a second invocation generates
none. -/
theorem meal_plan_task_generation_witness :
    ∃ t1 t2, run_meal_plan_tasks [sample_plan] [soup_menu, salad_menu] [sample_meal_set]
        [⟨5, MealSlot.dinner, some 1, 1⟩, ⟨5, MealSlot.dinner, some 2, 2⟩] 1 1 10 []
        [sample_meal_day] = [t1, t2] ∧
      t1.title = "昼食準備: " ++ sample_meal_set.name ∧
      t1.description = none ∧
      t1.category = "meal" ∧ t1.due_date = sample_meal_day.day_date ∧
      t1.proposed_points = 2 ∧ t1.priority = 2 ∧
      t1.meal_plan_day_id = some sample_meal_day.id ∧
      t1.meal_slot = some MealSlot.lunch ∧
      t1.status = TaskStatus.open_ ∧
      t2.title = "夕食準備: 献立 (" ++ String.intercalate ", " ["Soup", "Salad"] ++ ")" ∧
      t2.description = some (String.intercalate "\n" ["Soup", "Salad"]) ∧
      t2.category = "meal" ∧ t2.due_date = sample_meal_day.day_date ∧
      t2.proposed_points = 2 ∧ t2.priority = 2 ∧
      t2.meal_plan_day_id = some sample_meal_day.id ∧
      t2.meal_slot = some MealSlot.dinner ∧
      t2.status = TaskStatus.open_ ∧
      run_meal_plan_tasks [sample_plan] [soup_menu, salad_menu] [sample_meal_set]
        [⟨5, MealSlot.dinner, some 1, 1⟩, ⟨5, MealSlot.dinner, some 2, 2⟩] 1 1 10
        ([] ++ [t1, t2]) [sample_meal_day] = [] :=
  meal_plan_task_generation [sample_plan] [soup_menu, salad_menu] [sample_meal_set]
    [⟨5, MealSlot.dinner, some 1, 1⟩, ⟨5, MealSlot.dinner, some 2, 2⟩] 1 1 10 []
    sample_meal_day sample_meal_set ["Soup", "Salad"]
    rfl (by decide) rfl rfl (by decide) (by decide) rfl (by decide) (by decide)
    (by decide) (by decide) (by intro t ht; cases ht)

/-- C9 counterexample: an ingredient without a unit that is used by a menu
breaks the round trip: the menu line exports `unit: null`, which the importer
reads back as the literal string "None"
(`str(ing.get("unit", ""))`), so the restored ingredient table carries an
extra ("A", "None") row and the restored menu line's unit differs from the
original. -/
theorem import_none_unit_counterexample :
    (export_household_data (import_household_data (clear_ingredients_and_menus none_unit_db) 1
        (export_household_data none_unit_db 1)) 1).ingredients
      = [("A", none), ("A", some "None")] ∧
    (export_household_data none_unit_db 1).ingredients = [("A", none)] ∧
    ([("A", none), ("A", some "None")] : List (String × Option String))
      ≠ [("A", none)] :=
  ⟨by decide, by decide, by decide⟩

/-- A `filterMap` whose function hits on every element is a `map`. -/
theorem filterMap_eq_map_of {α β : Type} (f : α → Option β) (g : α → β)
    (l : List α) (h : ∀ x ∈ l, f x = some (g x)) : l.filterMap f = l.map g := by
  induction l with
  | nil => rfl
  | cons a as ih =>
    rw [List.filterMap_cons, h a (List.mem_cons_self a as), List.map_cons,
      ih fun x hx => h x (List.mem_cons_of_mem a hx)]

/-- A `filterMap` whose function misses on every element is empty. -/
theorem filterMap_eq_nil_of {α β : Type} (f : α → Option β)
    (l : List α) (h : ∀ x ∈ l, f x = none) : l.filterMap f = [] := by
  induction l with
  | nil => rfl
  | cons a as ih =>
    rw [List.filterMap_cons, h a (List.mem_cons_self a as),
      ih fun x hx => h x (List.mem_cons_of_mem a hx)]

/-- Lookup by a duplicate-free integer key returns the member itself. -/
theorem find?_eq_of_key_nodup {α : Type} (key : α → Int) (l : List α) (a : α)
    (hmem : a ∈ l) (hnodup : (l.map key).Nodup) :
    l.find? (fun x => key x == key a) = some a := by
  induction l with
  | nil => cases hmem
  | cons v vs ih =>
    rw [List.map_cons, List.nodup_cons] at hnodup
    rcases List.mem_cons.mp hmem with h | h
    · subst h
      rw [List.find?_cons_of_pos]
      simp
    · have hv : ¬ key v = key a := fun he =>
        hnodup.1 (he ▸ List.mem_map_of_mem key h)
      rw [List.find?_cons_of_neg _ (by simp [hv])]
      exact ih h hnodup.2

/-- Re-flagging the active unit option of the household with its own name
leaves the table unchanged. -/
theorem set_unit_option_active_self (household_id : Int) (l : List UnitOption)
    (u : UnitOption) (hmem : u ∈ l)
    (hhh : ∀ v ∈ l, v.household_id = household_id)
    (hnodup : (l.map fun v => v.name).Nodup)
    (hact : u.active = true) :
    set_unit_option_active household_id u.name true l = l := by
  induction l with
  | nil => cases hmem
  | cons v vs ih =>
    rw [List.map_cons, List.nodup_cons] at hnodup
    simp only [set_unit_option_active]
    by_cases hv : (v.household_id == household_id && v.name == u.name) = true
    · rw [if_pos hv]
      have hvname : v.name = u.name := by simp at hv; exact hv.2
      have hueq : u = v := by
        rcases List.mem_cons.mp hmem with h | h
        · exact h
        · exact absurd (hvname ▸ List.mem_map_of_mem (fun w => w.name) h) hnodup.1
      have hva : v.active = true := by
        rw [hueq] at hact
        exact hact
      have : ({ v with active := true } : UnitOption) = v := by
        rw [← hva]
      rw [this]
    · rw [if_neg hv]
      have humem : u ∈ vs := by
        rcases List.mem_cons.mp hmem with h | h
        · exfalso
          apply hv
          subst h
          simp [hhh u (List.mem_cons_self u vs)]
        · exact h
      rw [ih humem (fun w hw => hhh w (List.mem_cons_of_mem v hw)) hnodup.2]

/-- Importing the exported entry of an active unit option is the
identity. -/
theorem import_unit_option_self (db : MealDB) (household_id : Int) (u : UnitOption)
    (hmem : u ∈ db.unit_options) (hact : u.active = true)
    (hhh : ∀ v ∈ db.unit_options, v.household_id = household_id)
    (hname : trimmed_nonempty u.name)
    (hnodup : (db.unit_options.map fun v => v.name).Nodup) :
    import_unit_option db household_id (u.name, u.active) = db := by
  unfold import_unit_option
  simp only [hname.2]
  rw [if_neg hname.1]
  have hfind : (db.unit_options.find? fun v =>
      v.household_id == household_id && v.name == u.name).isSome = true := by
    rw [List.find?_isSome]
    exact ⟨u, hmem, by simp [hhh u hmem]⟩
  rw [if_pos hfind, hact,
    set_unit_option_active_self household_id _ u hmem hhh hnodup hact]

/-- The unit-option section of an export re-imports as the identity. -/
theorem import_unit_options_id (db : MealDB) (household_id : Int)
    (hhh : ∀ v ∈ db.unit_options, v.household_id = household_id)
    (hnames : ∀ v ∈ db.unit_options, trimmed_nonempty v.name)
    (hnodup : (db.unit_options.map fun v => v.name).Nodup) :
    ∀ (es : List (String × Bool)),
    (∀ e ∈ es, ∃ u ∈ db.unit_options, u.active = true ∧ e = (u.name, u.active)) →
    es.foldl (fun d e => import_unit_option d household_id e) db = db := by
  intro es
  induction es with
  | nil => intro _; rfl
  | cons e es ih =>
    intro h
    obtain ⟨u, hu, hact, he⟩ := h e (List.mem_cons_self e es)
    rw [List.foldl_cons, he,
      import_unit_option_self db household_id u hu hact hhh (hnames u hu) hnodup]
    exact ih fun x hx => h x (List.mem_cons_of_mem e hx)

/-- Bounds and household of the freshly created ingredients. -/
theorem created_ingredients_bounds (household_id : Int) :
    ∀ (ps : List (String × Option String)) (n : Int),
    ∀ i ∈ created_ingredients household_id n ps,
      n ≤ i.id ∧ i.id < n + ps.length ∧ i.household_id = household_id := by
  intro ps
  induction ps with
  | nil => intro n i hi; cases hi
  | cons p ps ih =>
    intro n i hi
    rcases List.mem_cons.mp hi with h | h
    · subst h
      refine ⟨le_refl _, ?_, rfl⟩
      simp only [List.length_cons]
      omega
    · obtain ⟨h1, h2, h3⟩ := ih (n + 1) i h
      refine ⟨by omega, ?_, h3⟩
      simp only [List.length_cons]
      omega

/-- The created ingredients carry exactly the imported (name, unit)
pairs, in order. -/
theorem created_ingredients_pairs (household_id : Int) :
    ∀ (ps : List (String × Option String)) (n : Int),
    (created_ingredients household_id n ps).map (fun i => (i.name, i.unit)) = ps := by
  intro ps
  induction ps with
  | nil => intro n; rfl
  | cons p ps ih =>
    intro n
    simp only [created_ingredients, List.map_cons, ih]

/-- The freshly allocated ingredient ids are pairwise distinct. -/
theorem created_ingredients_ids_nodup (household_id : Int) :
    ∀ (ps : List (String × Option String)) (n : Int),
    ((created_ingredients household_id n ps).map fun i => i.id).Nodup := by
  intro ps
  induction ps with
  | nil => intro n; simp [created_ingredients]
  | cons p ps ih =>
    intro n
    simp only [created_ingredients, List.map_cons, List.nodup_cons]
    refine ⟨?_, ih (n + 1)⟩
    intro hmem
    obtain ⟨i, hi, hid⟩ := List.mem_map.mp hmem
    have := (created_ingredients_bounds household_id ps (n + 1) i hi).1
    omega

/-- Lookup of a created pair succeeds and returns a row with that pair. -/
theorem created_ingredients_find_pair (household_id : Int) :
    ∀ (ps : List (String × Option String)) (n : Int), ps.Nodup →
    ∀ p ∈ ps, ∃ ing,
      (created_ingredients household_id n ps).find?
          (fun i => i.household_id == household_id && i.name == p.1 && i.unit == p.2)
        = some ing ∧ ing ∈ created_ingredients household_id n ps
        ∧ ing.name = p.1 ∧ ing.unit = p.2 := by
  intro ps
  induction ps with
  | nil => intro n _ p hp; cases hp
  | cons q ps ih =>
    intro n hnodup p hp
    rw [List.nodup_cons] at hnodup
    by_cases hpq : p = q
    · subst hpq
      refine ⟨{ id := n, household_id := household_id, name := p.1, unit := p.2 },
        ?_, List.mem_cons_self _ _, rfl, rfl⟩
      rw [created_ingredients, List.find?_cons_of_pos]
      simp
    · have hp' : p ∈ ps := by
        rcases List.mem_cons.mp hp with h | h
        · exact absurd h hpq
        · exact h
      obtain ⟨ing, hfind, hmem, hn, hu⟩ := ih (n + 1) hnodup.2 p hp'
      refine ⟨ing, ?_, List.mem_cons_of_mem _ hmem, hn, hu⟩
      rw [created_ingredients, List.find?_cons_of_neg, hfind]
      have : ¬(q.1 = p.1 ∧ q.2 = p.2) := by
        intro ⟨h1, h2⟩
        exact hpq (Prod.ext h1.symm h2.symm)
      simp only [Bool.and_eq_true, beq_iff_eq, not_and]
      intro _
      tauto

/-- The ingredient section of the import on a cleared table creates
exactly one fresh row per (name, unit) pair, in order. -/
theorem import_ingredients_spec (household_id : Int) :
    ∀ (ps : List (String × Option String)) (db : MealDB),
    (∀ p ∈ ps, trimmed_nonempty p.1 ∧ unit_wf p.2) →
    ps.Nodup →
    (∀ p ∈ ps, ∀ i ∈ db.ingredients,
      ¬(i.household_id = household_id ∧ i.name = p.1 ∧ i.unit = p.2)) →
    ps.foldl (fun d e => import_ingredient d household_id e) db
      = { db with
          ingredients := db.ingredients ++ created_ingredients household_id db.next_id ps
          next_id := db.next_id + ps.length } := by
  intro ps
  induction ps with
  | nil =>
    intro db _ _ _
    simp [created_ingredients]
  | cons p ps ih =>
    intro db hps hnodup hdisj
    rw [List.nodup_cons] at hnodup
    have hname := (hps p (List.mem_cons_self p ps)).1
    have hunit := (hps p (List.mem_cons_self p ps)).2
    have hstep : import_ingredient db household_id p
        = { db with
            ingredients := db.ingredients ++
              [{ id := db.next_id, household_id := household_id, name := p.1, unit := p.2 }]
            next_id := db.next_id + 1 } := by
      unfold import_ingredient
      simp only [hname.2]
      rw [if_neg hname.1]
      unfold get_or_create_ingredient
      have hnorm : normalize_opt_str p.2 = p.2 := by
        cases hp2 : p.2 with
        | none => rfl
        | some s =>
          rw [hp2] at hunit
          simp only [normalize_opt_str]
          rw [if_neg hunit]
      rw [hnorm]
      have hfind : (db.ingredients.find? fun i =>
          i.household_id == household_id && i.name == p.1 && i.unit == p.2) = none := by
        rw [List.find?_eq_none]
        intro i hi
        have := hdisj p (List.mem_cons_self p ps) i hi
        simp only [Bool.and_eq_true, beq_iff_eq, not_and]
        tauto
      rw [hfind]
    rw [List.foldl_cons, hstep, ih _
      (fun q hq => hps q (List.mem_cons_of_mem p hq)) hnodup.2 ?_]
    · congr 1
      · rw [List.append_assoc]
        rfl
      · simp only [List.length_cons]
        push_cast
        omega
    · intro q hq i hi
      rcases List.mem_append.mp hi with h | h
      · exact hdisj q (List.mem_cons_of_mem p hq) i h
      · rw [List.mem_singleton] at h
        subst h
        intro hcon
        apply hnodup.1
        have hp1 : p.1 = q.1 := hcon.2.1
        have hp2 : p.2 = q.2 := hcon.2.2
        have hpq : p = q := Prod.ext_iff.mpr ⟨hp1, hp2⟩
        exact hpq ▸ hq

/-- A household filter over rows that all belong to the household is the
identity. -/
theorem get_ingredients_all (db : MealDB) (household_id : Int)
    (h : ∀ i ∈ db.ingredients, i.household_id = household_id) :
    get_ingredients db household_id = db.ingredients := by
  unfold get_ingredients
  rw [List.filter_eq_self]
  intro i hi
  simp [h i hi]

/-- As `get_ingredients_all`, for menus. -/
theorem get_menus_all (db : MealDB) (household_id : Int)
    (h : ∀ m ∈ db.menus, m.household_id = household_id) :
    get_menus_for_household db household_id = db.menus := by
  unfold get_menus_for_household
  rw [List.filter_eq_self]
  intro m hm
  simp [h m hm]

/-- The (name, unit) key of a line whose unit string is non-blank and
trimmed is that unit itself: a resolved option was found by that very
name. -/
theorem triple_unit_arg_some (lookup : List UnitOption) (t : String × ℚ × String)
    (h1 : t.2.2 ≠ "") (h2 : strip t.2.2 = t.2.2) :
    triple_unit_arg lookup t = some t.2.2 := by
  unfold triple_unit_arg triple_uopt
  simp only [if_neg h1, h2]
  cases hf : lookup.find? fun u => u.name == t.2.2 with
  | none => simp [if_neg h1]
  | some o =>
    have hname := List.find?_some hf
    simp only [beq_iff_eq] at hname
    simp [hname]

/-- `save_menu_ingredient_line`, re-expressed through the named helpers. -/
theorem save_menu_ingredient_line_eq (household_id menu_id : Int)
    (lookup : List UnitOption) (T : MealDB) (t : String × ℚ × String) :
    save_menu_ingredient_line household_id menu_id lookup T t
      = if strip t.1 = "" then T
        else
          let r := get_or_create_ingredient T household_id (strip t.1)
            (triple_unit_arg lookup t)
          { r.2 with menu_ingredients := r.2.menu_ingredients ++ [{
              menu_id := menu_id
              ingredient_id := r.1.id
              quantity := t.2.1
              unit_option_id := (triple_uopt lookup t).map fun o => o.id }] } := rfl

/-- One save step on a line whose ingredient already exists appends
exactly the expected row and changes nothing else. -/
theorem save_menu_ingredient_line_found (household_id menu_id : Int)
    (lookup : List UnitOption) (T : MealDB) (t : String × ℚ × String)
    (hcl : ¬ strip t.1 = "")
    (hfound : (T.ingredients.find? fun i => i.household_id == household_id
        && i.name == strip t.1 && i.unit == triple_unit_arg lookup t).isSome = true) :
    save_menu_ingredient_line household_id menu_id lookup T t
      = { T with menu_ingredients := T.menu_ingredients
          ++ [menu_row lookup T.ingredients household_id menu_id t] } := by
  rw [save_menu_ingredient_line_eq, if_neg hcl]
  obtain ⟨ing, hing⟩ := Option.isSome_iff_exists.mp hfound
  unfold get_or_create_ingredient menu_row
  rw [hing]

/-- Folding the save loop over lines whose ingredients all exist appends
exactly the expected rows. -/
theorem save_lines_fold (household_id menu_id : Int) (lookup : List UnitOption) :
    ∀ (ls : List (String × ℚ × String)) (T : MealDB),
    (∀ t ∈ ls, ¬ strip t.1 = "" ∧
      (T.ingredients.find? fun i => i.household_id == household_id
        && i.name == strip t.1 && i.unit == triple_unit_arg lookup t).isSome = true) →
    ls.foldl (save_menu_ingredient_line household_id menu_id lookup) T
      = { T with menu_ingredients := T.menu_ingredients
          ++ ls.map (menu_row lookup T.ingredients household_id menu_id) } := by
  intro ls
  induction ls with
  | nil => intro T _; simp
  | cons t ts ih =>
    intro T h
    obtain ⟨hcl, hfound⟩ := h t (List.mem_cons_self t ts)
    rw [List.foldl_cons,
      save_menu_ingredient_line_found household_id menu_id lookup T t hcl hfound,
      ih { T with menu_ingredients := T.menu_ingredients
            ++ [menu_row lookup T.ingredients household_id menu_id t] }
        fun u hu => h u (List.mem_cons_of_mem t hu)]
    simp [List.append_assoc]

/-- `save_menu_ingredients` on a menu id that owns no row yet appends the
expected rows. -/
theorem save_menu_ingredients_clean (T : MealDB) (household_id menu_id : Int)
    (ls : List (String × ℚ × String))
    (hclean : T.menu_ingredients.filter (fun mi => !(mi.menu_id == menu_id))
      = T.menu_ingredients)
    (hls : ∀ t ∈ ls, ¬ strip t.1 = "" ∧
      (T.ingredients.find? fun i => i.household_id == household_id
        && i.name == strip t.1
        && i.unit == triple_unit_arg (get_unit_options T household_id) t).isSome = true) :
    save_menu_ingredients T household_id menu_id ls
      = { T with menu_ingredients := T.menu_ingredients
          ++ ls.map (menu_row (get_unit_options T household_id) T.ingredients
              household_id menu_id) } := by
  have h1 : save_menu_ingredients T household_id menu_id ls
      = ls.foldl (save_menu_ingredient_line household_id menu_id
          (get_unit_options T household_id)) T := by
    unfold save_menu_ingredients
    rw [hclean]
  rw [h1]
  exact save_lines_fold household_id menu_id (get_unit_options T household_id) ls T hls

/-- One menu-import step in the cleared-table scenario: a fresh menu plus
its expected rows. -/
theorem import_menu_step (S : MealDB) (household_id : Int) (em : ExportMenu)
    (hname : ¬ strip em.name = "")
    (hnf : (S.menus.find? fun m =>
      m.household_id == household_id && m.name == strip em.name) = none)
    (hrows : ∀ mi ∈ S.menu_ingredients, ¬ mi.menu_id = S.next_id)
    (hls : ∀ t ∈ menu_line_triples em, ¬ strip t.1 = "" ∧
      (S.ingredients.find? fun i => i.household_id == household_id
        && i.name == strip t.1
        && i.unit == triple_unit_arg (get_unit_options S household_id) t).isSome = true) :
    import_menu S household_id em
      = { S with
          menus := S.menus ++ [{
            id := S.next_id
            household_id := household_id
            name := strip em.name
            description := em.description }]
          menu_ingredients := S.menu_ingredients ++ (menu_line_triples em).map
            (menu_row (get_unit_options S household_id) S.ingredients
              household_id S.next_id)
          next_id := S.next_id + 1 } := by
  simp only [import_menu]
  rw [if_neg hname, hnf]
  have := save_menu_ingredients_clean
    { S with
      menus := S.menus ++ [{
        id := S.next_id
        household_id := household_id
        name := strip em.name
        description := em.description }]
      next_id := S.next_id + 1 }
    household_id S.next_id (menu_line_triples em)
    (by
      rw [List.filter_eq_self]
      intro mi hmi
      simp [hrows mi hmi])
    (fun t ht => hls t ht)
  rw [this]
  rfl

/-- The menus section of the import on a cleared menu table creates the
expected fresh menus and rows. -/
theorem import_menus_fold (household_id : Int) :
    ∀ (ems : List ExportMenu) (S : MealDB),
    (∀ em ∈ ems, strip em.name = em.name ∧ ¬ em.name = "") →
    ((ems.map fun em => em.name).Nodup) →
    (∀ em ∈ ems, ∀ m ∈ S.menus, ¬(m.household_id = household_id ∧ m.name = em.name)) →
    (∀ mi ∈ S.menu_ingredients, mi.menu_id < S.next_id) →
    (∀ em ∈ ems, ∀ t ∈ menu_line_triples em, ¬ strip t.1 = "" ∧
      (S.ingredients.find? fun i => i.household_id == household_id
        && i.name == strip t.1
        && i.unit == triple_unit_arg (get_unit_options S household_id) t).isSome = true) →
    ems.foldl (fun d e => import_menu d household_id e) S
      = { S with
          menus := S.menus ++ (import_menus_expected (get_unit_options S household_id)
            S.ingredients household_id S.next_id ems).1
          menu_ingredients := S.menu_ingredients ++ (import_menus_expected
            (get_unit_options S household_id) S.ingredients household_id S.next_id ems).2
          next_id := S.next_id + ems.length } := by
  intro ems
  induction ems with
  | nil =>
    intro S _ _ _ _ _
    simp [import_menus_expected]
  | cons em ems ih =>
    intro S hnames hnodup hold hrows hls
    rw [List.map_cons, List.nodup_cons] at hnodup
    have hname := hnames em (List.mem_cons_self em ems)
    have hstep := import_menu_step S household_id em
      (by rw [hname.1]; exact hname.2)
      (by
        rw [List.find?_eq_none]
        intro m hm
        have := hold em (List.mem_cons_self em ems) m hm
        rw [hname.1]
        simp only [Bool.and_eq_true, beq_iff_eq, not_and]
        tauto)
      (fun mi hmi => by
        have := hrows mi hmi
        omega)
      (hls em (List.mem_cons_self em ems))
    have hih := ih
      { S with
        menus := S.menus ++ [{
          id := S.next_id
          household_id := household_id
          name := strip em.name
          description := em.description }]
        menu_ingredients := S.menu_ingredients ++ (menu_line_triples em).map
          (menu_row (get_unit_options S household_id) S.ingredients
            household_id S.next_id)
        next_id := S.next_id + 1 }
      (fun e he => hnames e (List.mem_cons_of_mem em he))
      hnodup.2
      (by
        intro e he m hm
        rcases List.mem_append.mp hm with h | h
        · exact hold e (List.mem_cons_of_mem em he) m h
        · rw [List.mem_singleton] at h
          subst h
          intro hcon
          have hee : em.name = e.name := by
            have := hcon.2
            rw [hname.1] at this
            exact this
          exact hnodup.1 (hee ▸ List.mem_map_of_mem (fun x => x.name) he))
      (by
        intro mi hmi
        rcases List.mem_append.mp hmi with h | h
        · have := hrows mi h
          show mi.menu_id < S.next_id + 1
          omega
        · obtain ⟨t, ht, hrow⟩ := List.mem_map.mp h
          have hmid : mi.menu_id = S.next_id := by rw [← hrow]; rfl
          show mi.menu_id < S.next_id + 1
          omega)
      (by
        intro e he t ht
        exact hls e (List.mem_cons_of_mem em he) t ht)
    rw [List.foldl_cons, hstep, hih]
    simp only [import_menus_expected, List.length_cons]
    congr 1
    · rw [List.append_assoc]
      rfl
    · rw [List.append_assoc]
      rfl
    · push_cast
      omega

/-- `lines_of` distributes over row-table concatenation. -/
theorem lines_of_append (opts : List UnitOption) (ings : List Ingredient)
    (r1 r2 : List MenuIngredient) (m : Menu) :
    lines_of opts ings (r1 ++ r2) m
      = lines_of opts ings r1 m ++ lines_of opts ings r2 m := by
  unfold lines_of
  rw [List.filterMap_append]

/-- Rows of other menus contribute no line. -/
theorem lines_of_none (opts : List UnitOption) (ings : List Ingredient)
    (rows : List MenuIngredient) (m : Menu)
    (h : ∀ mi ∈ rows, ¬ mi.menu_id = m.id) :
    lines_of opts ings rows m = [] := by
  unfold lines_of
  apply filterMap_eq_nil_of
  intro mi hmi
  unfold export_line_fn
  rw [if_neg]
  simp [h mi hmi]

/-- The expected rows of the menu import carry menu ids in the allocated
range. -/
theorem import_menus_expected_rows_bounds (lookup : List UnitOption)
    (ings : List Ingredient) (household_id : Int) :
    ∀ (ems : List ExportMenu) (n : Int),
    ∀ mi ∈ (import_menus_expected lookup ings household_id n ems).2,
      n ≤ mi.menu_id ∧ mi.menu_id < n + ems.length := by
  intro ems
  induction ems with
  | nil => intro n mi hmi; cases hmi
  | cons em ems ih =>
    intro n mi hmi
    simp only [import_menus_expected] at hmi
    rcases List.mem_append.mp hmi with h | h
    · obtain ⟨t, ht, hrow⟩ := List.mem_map.mp h
      have : mi.menu_id = n := by rw [← hrow]; rfl
      simp only [List.length_cons]
      omega
    · obtain ⟨h1, h2⟩ := ih (n + 1) mi h
      simp only [List.length_cons]
      omega

/-- The expected menus of the menu import belong to the household and
carry ids in the allocated range. -/
theorem import_menus_expected_menus_bounds (lookup : List UnitOption)
    (ings : List Ingredient) (household_id : Int) :
    ∀ (ems : List ExportMenu) (n : Int),
    ∀ m ∈ (import_menus_expected lookup ings household_id n ems).1,
      m.household_id = household_id ∧ n ≤ m.id ∧ m.id < n + ems.length := by
  intro ems
  induction ems with
  | nil => intro n m hm; cases hm
  | cons em ems ih =>
    intro n m hm
    simp only [import_menus_expected] at hm
    rcases List.mem_cons.mp hm with h | h
    · subst h
      refine ⟨rfl, le_refl _, ?_⟩
      simp only [List.length_cons]
      omega
    · obtain ⟨h1, h2, h3⟩ := ih (n + 1) m h
      refine ⟨h1, by omega, ?_⟩
      simp only [List.length_cons]
      omega

/-- Re-exporting the expected row of one well-formed line yields exactly
the original line. -/
theorem menu_row_export_line (lookup opts_all : List UnitOption)
    (ings : List Ingredient) (household_id n : Int)
    (hsub : ∀ o ∈ lookup, o ∈ opts_all)
    (hidnodup : (opts_all.map fun w => w.id).Nodup)
    (hia_id : ∀ ing ∈ ings, ings.find? (fun i => i.id == ing.id) = some ing)
    (m : Menu) (hmid : m.id = n) (l : ExportIngredientLine)
    (hl : strip l.name = l.name ∧ ¬ l.name = "" ∧ ∃ u, l.unit = some u ∧ ¬ u = ""
      ∧ strip u = u ∧ ∃ ing, (ings.find? fun i => i.household_id == household_id
        && i.name == l.name && i.unit == some u) = some ing) :
    export_line_fn opts_all ings m (menu_row lookup ings household_id n
        (l.name, l.quantity, str_of_opt_unit l.unit)) = some l := by
  obtain ⟨hln, hlne, u, hu, hune, hust, ing, hing⟩ := hl
  have htu : str_of_opt_unit l.unit = u := by rw [hu]; rfl
  rw [htu]
  have harg : triple_unit_arg lookup (l.name, l.quantity, u) = some u :=
    triple_unit_arg_some lookup (l.name, l.quantity, u) hune hust
  have huopt : triple_uopt lookup (l.name, l.quantity, u)
      = lookup.find? fun w => w.name == u := by
    unfold triple_uopt
    simp [hust, hune]
  have hingmem : ing ∈ ings := List.mem_of_find?_eq_some hing
  have hingpred := List.find?_some hing
  simp only [Bool.and_eq_true, beq_iff_eq] at hingpred
  obtain ⟨⟨hinghh, hingname⟩, hingunit⟩ := hingpred
  have hrow : menu_row lookup ings household_id n (l.name, l.quantity, u)
      = { menu_id := n
          ingredient_id := ing.id
          quantity := l.quantity
          unit_option_id := (lookup.find? fun w => w.name == u).map fun o => o.id } := by
    unfold menu_row
    rw [harg, huopt]
    have hfp : (ings.find? fun i => i.household_id == household_id
        && i.name == strip (l.name, l.quantity, u).1 && i.unit == some u) = some ing := by
      have hstr : strip (l.name, l.quantity, u).1 = l.name := hln
      rw [hstr]
      exact hing
    rw [hfp]
  rw [hrow]
  unfold export_line_fn
  rw [hmid]
  rw [if_pos (by simp)]
  rw [hia_id ing hingmem]
  simp only [Option.map_some]
  cases hflk : lookup.find? fun w => w.name == u with
  | none =>
    simp [py_or_opt_str, hingunit, hingname]
    rw [← hu]
  | some o =>
    have homem : o ∈ lookup := List.mem_of_find?_eq_some hflk
    have honame := List.find?_some hflk
    simp only [beq_iff_eq] at honame
    have hfid : opts_all.find? (fun w => w.id == o.id) = some o :=
      find?_eq_of_key_nodup (fun w => w.id) opts_all o (hsub o homem) hidnodup
    simp [hfid, py_or_opt_str, hingunit, hingname, honame, hune]
    rw [← hu]

/-- Re-exporting the expected rows of one menu's well-formed lines yields
exactly those lines. -/
theorem export_lines_group (lookup opts_all : List UnitOption)
    (ings : List Ingredient) (household_id n : Int)
    (hsub : ∀ o ∈ lookup, o ∈ opts_all)
    (hidnodup : (opts_all.map fun w => w.id).Nodup)
    (hia_id : ∀ ing ∈ ings, ings.find? (fun i => i.id == ing.id) = some ing)
    (m : Menu) (hmid : m.id = n) :
    ∀ (ls : List ExportIngredientLine),
    (∀ l ∈ ls, strip l.name = l.name ∧ ¬ l.name = "" ∧
      ∃ u, l.unit = some u ∧ ¬ u = "" ∧ strip u = u ∧
      ∃ ing, (ings.find? fun i => i.household_id == household_id && i.name == l.name
        && i.unit == some u) = some ing) →
    List.filterMap (export_line_fn opts_all ings m)
      ((ls.map fun l => (l.name, l.quantity, str_of_opt_unit l.unit)).map
        (menu_row lookup ings household_id n))
      = ls := by
  intro ls
  induction ls with
  | nil => intro _; rfl
  | cons l ls ih =>
    intro h
    rw [List.map_cons, List.map_cons, List.filterMap_cons]
    rw [menu_row_export_line lookup opts_all ings household_id n hsub hidnodup hia_id
      m hmid l (h l (List.mem_cons_self l ls))]
    rw [ih fun x hx => h x (List.mem_cons_of_mem l hx)]

set_option maxHeartbeats 2000000 in
/-- Re-exporting the expected menus of the import yields exactly the
originally exported menus. -/
theorem expected_menus_export (household_id : Int)
    (lookup opts_all : List UnitOption) (ings : List Ingredient)
    (hsub : ∀ o ∈ lookup, o ∈ opts_all)
    (hidnodup : (opts_all.map fun w => w.id).Nodup)
    (hia_id : ∀ ing ∈ ings, ings.find? (fun i => i.id == ing.id) = some ing) :
    ∀ (ems : List ExportMenu) (n : Int) (pre : List MenuIngredient),
    (∀ mi ∈ pre, mi.menu_id < n) →
    (∀ em ∈ ems, strip em.name = em.name) →
    (∀ em ∈ ems, ∀ l ∈ em.ingredients, strip l.name = l.name ∧ ¬ l.name = "" ∧
      ∃ u, l.unit = some u ∧ ¬ u = "" ∧ strip u = u ∧
      ∃ ing, (ings.find? fun i => i.household_id == household_id && i.name == l.name
        && i.unit == some u) = some ing) →
    ((import_menus_expected lookup ings household_id n ems).1).map (fun m =>
      ({
         name := m.name
         description := m.description
         ingredients := lines_of opts_all ings
           (pre ++ (import_menus_expected lookup ings household_id n ems).2) m }
        : ExportMenu))
      = ems := by
  intro ems
  induction ems with
  | nil => intro n pre _ _ _; rfl
  | cons em ems ih =>
    intro n pre hpre hnames hlines
    have hts : menu_line_triples em = em.ingredients.map
        (fun l => (l.name, l.quantity, str_of_opt_unit l.unit)) := by
      apply filterMap_eq_map_of
      intro l hlmem
      obtain ⟨h1, h2, -⟩ := hlines em (List.mem_cons_self em ems) l hlmem
      simp only [h1]
      rw [if_neg h2]
    simp only [import_menus_expected, List.map_cons]
    have hm0 : ({ id := n, household_id := household_id, name := strip em.name,
                  description := em.description } : Menu).id = n := rfl
    congr 1
    · have hsplit : lines_of opts_all ings
          (pre ++ ((menu_line_triples em).map (menu_row lookup ings household_id n)
            ++ (import_menus_expected lookup ings household_id (n + 1) ems).2))
          { id := n, household_id := household_id, name := strip em.name,
            description := em.description }
          = em.ingredients := by
        rw [lines_of_append, lines_of_append]
        rw [lines_of_none _ _ pre _ (fun mi hmi => by
          have := hpre mi hmi
          rw [hm0]
          omega)]
        rw [lines_of_none _ _ (import_menus_expected lookup ings household_id (n + 1) ems).2 _
          (fun mi hmi => by
            have := (import_menus_expected_rows_bounds lookup ings household_id ems
              (n + 1) mi hmi).1
            rw [hm0]
            omega)]
        rw [List.nil_append, List.append_nil]
        rw [hts]
        unfold lines_of
        exact export_lines_group lookup opts_all ings household_id n hsub hidnodup
          hia_id _ hm0 em.ingredients
          (fun l hlmem => hlines em (List.mem_cons_self em ems) l hlmem)
      rw [hsplit, hnames em (List.mem_cons_self em ems)]
    · have hassoc : pre ++ ((menu_line_triples em).map (menu_row lookup ings household_id n)
            ++ (import_menus_expected lookup ings household_id (n + 1) ems).2)
          = (pre ++ (menu_line_triples em).map (menu_row lookup ings household_id n))
            ++ (import_menus_expected lookup ings household_id (n + 1) ems).2 := by
        rw [List.append_assoc]
      rw [hassoc]
      exact ih (n + 1)
        (pre ++ (menu_line_triples em).map (menu_row lookup ings household_id n))
        (by
          intro mi hmi
          rcases List.mem_append.mp hmi with h | h
          · have := hpre mi h
            omega
          · obtain ⟨t, ht, hrow⟩ := List.mem_map.mp h
            have : mi.menu_id = n := by rw [← hrow]; rfl
            omega)
        (fun e he => hnames e (List.mem_cons_of_mem em he))
        (fun e he => hlines e (List.mem_cons_of_mem em he))

set_option maxHeartbeats 2000000 in
/-- C9 amended: for every well-formed household state — the shape the
application itself creates: trimmed non-empty names, every menu line's
ingredient carrying a non-null trimmed unit that matches its unit option,
unique natural keys — exporting, clearing the ingredient and menu tables
and importing the document restores ingredient records with the same
(name, unit) pairs and menu records with the same names, descriptions and
ingredient lines (names, quantities, units), even though primary keys
differ; a menu line on a unit-less ingredient is excluded, since its null
unit re-imports as the literal string "None". -/
theorem export_import_round_trip (db : MealDB) (household_id : Int)
    (hwf : WFHousehold db household_id) :
    (export_household_data (import_household_data (clear_ingredients_and_menus db)
        household_id (export_household_data db household_id)) household_id).ingredients
      = (export_household_data db household_id).ingredients ∧
    (export_household_data (import_household_data (clear_ingredients_and_menus db)
        household_id (export_household_data db household_id)) household_id).menus
      = (export_household_data db household_id).menus := by
  obtain ⟨hopts_hh, hopts_name, hopts_nnodup, hopts_idnodup, hings_hh, hings_name,
    hings_unit, hings_pairs, hmenus_hh, hmenus_name, hmenus_nnodup, hlines_unit⟩ := hwf
  have hexp_uo : (export_household_data db household_id).unit_options
      = (get_unit_options db household_id).map (fun u => (u.name, u.active)) := rfl
  have hps_eq : (export_household_data db household_id).ingredients
      = db.ingredients.map (fun i => (i.name, i.unit)) := by
    show (get_ingredients db household_id).map (fun i => (i.name, i.unit)) = _
    rw [get_ingredients_all db household_id hings_hh]
  have hexp_menus : (export_household_data db household_id).menus
      = db.menus.map (fun m => ({ name := m.name
                                  description := m.description
                                  ingredients := export_menu_lines db m } : ExportMenu)) := by
    show (get_menus_for_household db household_id).map _ = _
    rw [get_menus_all db household_id hmenus_hh]
  -- facts about every exported menu line
  have hline_facts : ∀ em ∈ (export_household_data db household_id).menus,
      ∀ l ∈ em.ingredients, strip l.name = l.name ∧ ¬ l.name = "" ∧
      ∃ u, l.unit = some u ∧ ¬ u = "" ∧ strip u = u ∧
        (l.name, some u) ∈ db.ingredients.map (fun i => (i.name, i.unit)) := by
    intro em hem l hl
    rw [hexp_menus] at hem
    obtain ⟨m, hm, hFm⟩ := List.mem_map.mp hem
    subst hFm
    have hl' : l ∈ export_menu_lines db m := hl
    unfold export_menu_lines lines_of at hl'
    obtain ⟨mi, hmi, hfmi⟩ := List.mem_filterMap.mp hl'
    unfold export_line_fn at hfmi
    split at hfmi
    case isFalse => cases hfmi
    case isTrue =>
      obtain ⟨ing, hing, hlval⟩ := Option.map_eq_some.mp hfmi
      have hingmem : ing ∈ db.ingredients := List.mem_of_find?_eq_some hing
      have hlok := hlines_unit mi hmi
      unfold line_unit_ok at hlok
      simp only [hing] at hlok
      cases hiu : ing.unit with
      | none => simp only [hiu] at hlok
      | some u =>
        simp only [hiu] at hlok
        obtain ⟨hutrim, hupy⟩ := hlok
        have hlname : l.name = ing.name := by rw [← hlval]
        have hlunit : l.unit = some u := by
          rw [← hlval]
          show py_or_opt_str _ ing.unit = some u
          rw [hiu]
          exact hupy
        have hnm := hings_name ing hingmem
        refine ⟨by rw [hlname]; exact hnm.2, by rw [hlname]; exact hnm.1, u,
          hlunit, hutrim.1, hutrim.2, ?_⟩
        rw [hlname, ← hiu]
        exact List.mem_map_of_mem (fun i => (i.name, i.unit)) hingmem
  -- step 1: the unit-option section is the identity on the cleared state
  have h_uo : ((export_household_data db household_id).unit_options).foldl
      (fun d e => import_unit_option d household_id e)
      (clear_ingredients_and_menus db) = clear_ingredients_and_menus db := by
    apply import_unit_options_id (clear_ingredients_and_menus db) household_id
      (fun v hv => hopts_hh v hv) (fun v hv => hopts_name v hv) hopts_nnodup
    intro e he
    rw [hexp_uo] at he
    obtain ⟨u, hu, hue⟩ := List.mem_map.mp he
    unfold get_unit_options at hu
    obtain ⟨humem, hupred⟩ := List.mem_filter.mp hu
    simp only [Bool.and_eq_true, beq_iff_eq] at hupred
    exact ⟨u, humem, hupred.2, hue.symm⟩
  -- step 2: the ingredient section creates the fresh rows
  have h_ing := import_ingredients_spec household_id
    (db.ingredients.map fun i => (i.name, i.unit)) (clear_ingredients_and_menus db)
    (by
      intro p hp
      obtain ⟨i, hi, hip⟩ := List.mem_map.mp hp
      subst hip
      exact ⟨hings_name i hi, hings_unit i hi⟩)
    hings_pairs
    (by
      intro p hp i hi
      exact absurd hi (List.not_mem_nil i))
  have hS2 : (db.ingredients.map fun i => (i.name, i.unit)).foldl
      (fun d e => import_ingredient d household_id e) (clear_ingredients_and_menus db)
      = post_ingredients_state db household_id := h_ing.trans rfl
  -- facts about the freshly created ingredient table
  have hIA_hh : ∀ i ∈ created_ingredients household_id db.next_id
      (db.ingredients.map fun i => (i.name, i.unit)), i.household_id = household_id :=
    fun i hi => (created_ingredients_bounds household_id _ _ i hi).2.2
  have hIA_id : ∀ ing ∈ created_ingredients household_id db.next_id
      (db.ingredients.map fun i => (i.name, i.unit)),
      (created_ingredients household_id db.next_id
        (db.ingredients.map fun i => (i.name, i.unit))).find?
        (fun i => i.id == ing.id) = some ing :=
    fun ing hing => find?_eq_of_key_nodup (fun i => i.id) _ ing hing
      (created_ingredients_ids_nodup household_id _ _)
  have hIA_pair : ∀ nm u, (nm, some u) ∈ (db.ingredients.map fun i => (i.name, i.unit)) →
      ∃ ingf, (created_ingredients household_id db.next_id
          (db.ingredients.map fun i => (i.name, i.unit))).find?
          (fun i => i.household_id == household_id && i.name == nm && i.unit == some u)
        = some ingf := by
    intro nm u hmem
    obtain ⟨ingf, hfind, -, -, -⟩ := created_ingredients_find_pair household_id
      (db.ingredients.map fun i => (i.name, i.unit))
      db.next_id hings_pairs (nm, some u) hmem
    exact ⟨ingf, hfind⟩
  -- per-menu facts of the exported document
  have hem_names : ∀ em ∈ (export_household_data db household_id).menus,
      strip em.name = em.name ∧ ¬ em.name = "" := by
    intro em hem
    rw [hexp_menus] at hem
    obtain ⟨m, hm, hFm⟩ := List.mem_map.mp hem
    subst hFm
    exact ⟨(hmenus_name m hm).2, (hmenus_name m hm).1⟩
  have hem_nodup : ((export_household_data db household_id).menus.map
      fun em => em.name).Nodup := by
    have hmm : ((export_household_data db household_id).menus.map fun em => em.name)
        = db.menus.map fun m => m.name := by
      rw [hexp_menus, List.map_map]
      rfl
    rw [hmm]
    exact hmenus_nnodup
  -- the triple facts the menu section needs, for any unit-option lookup
  have hls_all : ∀ (lk : List UnitOption),
      ∀ em ∈ (export_household_data db household_id).menus,
      ∀ t ∈ menu_line_triples em, ¬ strip t.1 = "" ∧
      ((created_ingredients household_id db.next_id
          (db.ingredients.map fun i => (i.name, i.unit))).find? fun i =>
        i.household_id == household_id && i.name == strip t.1
          && i.unit == triple_unit_arg lk t).isSome = true := by
    intro lk em hem t ht
    unfold menu_line_triples at ht
    obtain ⟨l, hl, hft⟩ := List.mem_filterMap.mp ht
    obtain ⟨hstr, hne, u, hlu, hune, hutrim, hpair⟩ := hline_facts em hem l hl
    have hft' : (if strip l.name = "" then none else
        some (strip l.name, l.quantity, str_of_opt_unit l.unit)) = some t := hft
    rw [if_neg (by rw [hstr]; exact hne)] at hft'
    have ht_eq : t = (strip l.name, l.quantity, str_of_opt_unit l.unit) :=
      (Option.some.inj hft').symm
    subst ht_eq
    refine ⟨?_, ?_⟩
    · show ¬ strip (strip l.name) = ""
      rw [hstr, hstr]
      exact hne
    · have harg : triple_unit_arg lk (l.name, l.quantity, str_of_opt_unit l.unit)
          = some u := by
        rw [hlu]
        exact triple_unit_arg_some lk (l.name, l.quantity, u) hune hutrim
      obtain ⟨ingf, hfind⟩ := hIA_pair l.name u hpair
      simp only [hstr, harg]
      rw [hfind]
      rfl
  -- step 3: the menu section on the post-ingredient state
  have hfold := import_menus_fold household_id
    (export_household_data db household_id).menus
    (post_ingredients_state db household_id)
    hem_names hem_nodup
    (fun em hem m hm => absurd hm (List.not_mem_nil m))
    (fun mi hmi => absurd hmi (List.not_mem_nil mi))
    (fun em hem t ht => hls_all _ em hem t ht)
  have hfinal : ((export_household_data db household_id).menus).foldl
      (fun d e => import_menu d household_id e) (post_ingredients_state db household_id)
      = round_trip_state db household_id := hfold.trans rfl
  have himport : import_household_data (clear_ingredients_and_menus db) household_id
      (export_household_data db household_id) = round_trip_state db household_id := by
    simp only [import_household_data]
    rw [h_uo, hps_eq, hS2, hfinal]
  rw [himport]
  refine ⟨?_, ?_⟩
  · show (get_ingredients (round_trip_state db household_id) household_id).map
      (fun i => (i.name, i.unit)) = (export_household_data db household_id).ingredients
    rw [get_ingredients_all (round_trip_state db household_id) household_id
      (fun i hi => (created_ingredients_bounds household_id _ _ i hi).2.2)]
    rw [hps_eq]
    exact created_ingredients_pairs household_id _ db.next_id
  · show (get_menus_for_household (round_trip_state db household_id) household_id).map
      (fun m => ({ name := m.name
                   description := m.description
                   ingredients := export_menu_lines (round_trip_state db household_id) m }
        : ExportMenu)) = (export_household_data db household_id).menus
    rw [get_menus_all (round_trip_state db household_id) household_id
      (fun m hm => (import_menus_expected_menus_bounds _ _ household_id _ _ m hm).1)]
    have hexp := expected_menus_export household_id (get_unit_options db household_id)
      db.unit_options
      (created_ingredients household_id db.next_id
        (db.ingredients.map fun i => (i.name, i.unit)))
      (fun o ho => List.mem_of_mem_filter ho) hopts_idnodup hIA_id
      (export_household_data db household_id).menus
      (db.next_id + (db.ingredients.map fun i => (i.name, i.unit)).length)
      []
      (fun mi hmi => absurd hmi (List.not_mem_nil mi))
      (fun em hem => (hem_names em hem).1)
      (by
        intro em hem l hl
        obtain ⟨h1, h2, u, hlu, hune, hutrim, hpair⟩ := hline_facts em hem l hl
        obtain ⟨ingf, hfind⟩ := hIA_pair l.name u hpair
        exact ⟨h1, h2, u, hlu, hune, hutrim, ingf, hfind⟩)
    rw [List.nil_append] at hexp
    exact hexp

/-- The concrete one-option, one-ingredient, one-menu state is well
formed. -/
theorem round_trip_db_wf : WFHousehold round_trip_db 1 := by
  refine ⟨by decide, ?_, by decide, by decide, by decide, ?_, ?_, by decide, by decide,
    ?_, by decide, ?_⟩
  · intro u hu
    simp only [round_trip_db, List.mem_singleton] at hu
    subst hu
    exact ⟨by decide, by decide⟩
  · intro i hi
    simp only [round_trip_db, List.mem_singleton] at hi
    subst hi
    exact ⟨by decide, by decide⟩
  · intro i hi
    simp only [round_trip_db, List.mem_singleton] at hi
    subst hi
    show ("個" : String) ≠ ""
    decide
  · intro m hm
    simp only [round_trip_db, List.mem_singleton] at hm
    subst hm
    exact ⟨by decide, by decide⟩
  · intro mi hmi
    simp only [round_trip_db, List.mem_singleton] at hmi
    subst hmi
    exact ⟨⟨by decide, by decide⟩, by decide⟩

/-- C9 witness: the concrete well-formed state (one unit option 個, one
ingredient りんご with that unit, one menu パイ using 3 of it) satisfies the
hypothesis, and its export/clear/import round trip restores the ingredient
and menu sections exactly. -/
theorem export_import_round_trip_witness :
    WFHousehold round_trip_db 1 ∧
    ((export_household_data (import_household_data (clear_ingredients_and_menus round_trip_db)
        1 (export_household_data round_trip_db 1)) 1).ingredients
      = (export_household_data round_trip_db 1).ingredients ∧
     (export_household_data (import_household_data (clear_ingredients_and_menus round_trip_db)
        1 (export_household_data round_trip_db 1)) 1).menus
      = (export_household_data round_trip_db 1).menus) :=
  ⟨round_trip_db_wf, export_import_round_trip round_trip_db 1 round_trip_db_wf⟩

/-- C3 witness: claiming the sample open task with no supplied points sets
assignee, status, `actual_points := 5` and `updated_at`. -/
theorem claim_effect_witness :
    update_task_status sample_task sample_user "claim" none [] 3 = Except.ok
      ({ sample_task with
          assignee_user_id := some sample_user.id
          status := TaskStatus.assigned
          actual_points :=
            if (none : Option Int).isSome then none
            else if sample_task.actual_points = none then some sample_task.proposed_points
            else sample_task.actual_points
          updated_at := 3 }, []) :=
  claim_effect sample_task sample_user none [] 3 rfl

end OrderSystem
